import Mathlib

/-! KeyControl: request handling and key-name resolution.

A shallow embedding of the HTTP handlers of `src/app/server.go` and of the two
key-name registries (`src/app/util.go`, `src/util.go`), followed by the
properties established about them.

Modelling conventions.

* Go strings are modelled by `String`; the only separator the handlers split on
  is the one-byte character `,`.
* `http.Header` and `url.Values` are observed only through `Get`, which returns
  the first value stored under a key and the empty string when there is none;
  both are modelled as ordered association lists.
* The numeric values of the `keybd_event.VK_*` constants belong to the
  third-party package `github.com/micmonay/keybd_event` and differ per
  platform; they are a parameter `K : KeyTable` of every definition using them.
* A handler run is summarised by the status written, the body written, the
  lines logged and the list of `simulateKeyPress` invocations, in order; it is
  the summary of a run in which the invocation returns.  What an invocation
  does, its `log.Fatalf` exits included, is modelled by `simulateKeyPress` as a
  list of effects.
-/

namespace KeyControl

/-! ## The key-code constants referenced by the registries -/

/-- Names of the `keybd_event.VK_*` constants mentioned in the two registries. -/
inductive keybd_event where
  | VK_SP1 | VK_SP2 | VK_SP3 | VK_SP4 | VK_SP5 | VK_SP6 | VK_SP7 | VK_SP8 | VK_SP9 | VK_SP10
  | VK_SP11 | VK_SP12 | VK_ESC | VK_1 | VK_2 | VK_3 | VK_4 | VK_5 | VK_6 | VK_7 | VK_8 | VK_9
  | VK_0 | VK_Q | VK_W | VK_E | VK_R | VK_T | VK_Y | VK_U | VK_I | VK_O | VK_P | VK_A | VK_S
  | VK_D | VK_F | VK_G | VK_H | VK_J | VK_K | VK_L | VK_Z | VK_X | VK_C | VK_V | VK_B | VK_N
  | VK_M | VK_F1 | VK_F2 | VK_F3 | VK_F4 | VK_F5 | VK_F6 | VK_F7 | VK_F8 | VK_F9 | VK_F10
  | VK_F11 | VK_F12 | VK_F13 | VK_F14 | VK_F15 | VK_F16 | VK_F17 | VK_F18 | VK_F19 | VK_F20
  | VK_F21 | VK_F22 | VK_F23 | VK_F24 | VK_NUMLOCK | VK_SCROLLLOCK | VK_RESERVED | VK_MINUS
  | VK_EQUAL | VK_BACKSPACE | VK_TAB | VK_LEFTBRACE | VK_RIGHTBRACE | VK_ENTER | VK_SEMICOLON
  | VK_APOSTROPHE | VK_GRAVE | VK_BACKSLASH | VK_COMMA | VK_DOT | VK_SLASH | VK_KPASTERISK
  | VK_SPACE | VK_CAPSLOCK | VK_KP0 | VK_KP1 | VK_KP2 | VK_KP3 | VK_KP4 | VK_KP5 | VK_KP6
  | VK_KP7 | VK_KP8 | VK_KP9 | VK_KPMINUS | VK_KPPLUS | VK_KPDOT | VK_LBUTTON | VK_RBUTTON
  | VK_CANCEL | VK_MBUTTON | VK_XBUTTON1 | VK_XBUTTON2 | VK_BACK | VK_CLEAR | VK_PAUSE
  | VK_CAPITAL | VK_KANA | VK_HANGUEL | VK_HANGUL | VK_JUNJA | VK_FINAL | VK_HANJA | VK_KANJI
  | VK_CONVERT | VK_NONCONVERT | VK_ACCEPT | VK_MODECHANGE | VK_PAGEUP | VK_PAGEDOWN | VK_END
  | VK_HOME | VK_LEFT | VK_UP | VK_RIGHT | VK_DOWN | VK_SELECT | VK_PRINT | VK_EXECUTE
  | VK_SNAPSHOT | VK_INSERT | VK_DELETE | VK_HELP | VK_SCROLL | VK_LMENU | VK_RMENU
  | VK_BROWSER_BACK | VK_BROWSER_FORWARD | VK_BROWSER_REFRESH | VK_BROWSER_STOP
  | VK_BROWSER_SEARCH | VK_BROWSER_FAVORITES | VK_BROWSER_HOME | VK_VOLUME_MUTE
  | VK_VOLUME_DOWN | VK_VOLUME_UP | VK_MEDIA_NEXT_TRACK | VK_MEDIA_PREV_TRACK | VK_MEDIA_STOP
  | VK_MEDIA_PLAY_PAUSE | VK_LAUNCH_MAIL | VK_LAUNCH_MEDIA_SELECT | VK_LAUNCH_APP1
  | VK_LAUNCH_APP2 | VK_OEM_1 | VK_OEM_PLUS | VK_OEM_COMMA | VK_OEM_MINUS | VK_OEM_PERIOD
  | VK_OEM_2 | VK_OEM_3 | VK_OEM_4 | VK_OEM_5 | VK_OEM_6 | VK_OEM_7 | VK_OEM_8 | VK_OEM_102
  | VK_PROCESSKEY | VK_PACKET | VK_ATTN | VK_CRSEL | VK_EXSEL | VK_EREOF | VK_PLAY | VK_ZOOM
  | VK_NONAME | VK_PA1 | VK_OEM_CLEAR
  deriving DecidableEq, Repr

/-- Assignment of a Go `int` to every `keybd_event.VK_*` constant. -/
abbrev KeyTable := keybd_event → Int

/-- Go `switch tag { case label: return K c; ...; default: return 0 }` over
string labels: the clauses are tried in source order, the first one whose
label equals the tag returns its constant, and `default` returns `0`. -/
def switchReturn (K : KeyTable) (tag : String) : List (String × keybd_event) → Int
  | [] => 0
  | (label, c) :: rest => if tag = label then K c else switchReturn K tag rest

/-! ## `src/app/util.go` -/

namespace App

/-- The `case` clauses of `getKeyCodeByKeyName` in `src/app/util.go`, in source
order: the label and the constant returned. -/
def caseClauses : List (String × keybd_event) :=
  [("SP1", keybd_event.VK_SP1), ("SP2", keybd_event.VK_SP2), ("SP3", keybd_event.VK_SP3),
   ("SP4", keybd_event.VK_SP4), ("SP5", keybd_event.VK_SP5), ("SP6", keybd_event.VK_SP6),
   ("SP7", keybd_event.VK_SP7), ("SP8", keybd_event.VK_SP8), ("SP9", keybd_event.VK_SP9),
   ("SP10", keybd_event.VK_SP10), ("SP11", keybd_event.VK_SP11), ("SP12", keybd_event.VK_SP12),
   ("ESC", keybd_event.VK_ESC), ("1", keybd_event.VK_1), ("2", keybd_event.VK_2),
   ("3", keybd_event.VK_3), ("4", keybd_event.VK_4), ("5", keybd_event.VK_5),
   ("6", keybd_event.VK_6), ("7", keybd_event.VK_7), ("8", keybd_event.VK_8),
   ("9", keybd_event.VK_9), ("0", keybd_event.VK_0), ("Q", keybd_event.VK_Q),
   ("W", keybd_event.VK_W), ("E", keybd_event.VK_E), ("R", keybd_event.VK_R),
   ("T", keybd_event.VK_T), ("Y", keybd_event.VK_Y), ("U", keybd_event.VK_U),
   ("I", keybd_event.VK_I), ("O", keybd_event.VK_O), ("P", keybd_event.VK_P),
   ("A", keybd_event.VK_A), ("S", keybd_event.VK_S), ("D", keybd_event.VK_D),
   ("F", keybd_event.VK_F), ("G", keybd_event.VK_G), ("H", keybd_event.VK_H),
   ("J", keybd_event.VK_J), ("K", keybd_event.VK_K), ("L", keybd_event.VK_L),
   ("Z", keybd_event.VK_Z), ("X", keybd_event.VK_X), ("C", keybd_event.VK_C),
   ("V", keybd_event.VK_V), ("B", keybd_event.VK_B), ("N", keybd_event.VK_N),
   ("M", keybd_event.VK_M), ("F1", keybd_event.VK_F1), ("F2", keybd_event.VK_F2),
   ("F3", keybd_event.VK_F3), ("F4", keybd_event.VK_F4), ("F5", keybd_event.VK_F5),
   ("F6", keybd_event.VK_F6), ("F7", keybd_event.VK_F7), ("F8", keybd_event.VK_F8),
   ("F9", keybd_event.VK_F9), ("F10", keybd_event.VK_F10), ("F11", keybd_event.VK_F11),
   ("F12", keybd_event.VK_F12), ("F13", keybd_event.VK_F13), ("F14", keybd_event.VK_F14),
   ("F15", keybd_event.VK_F15), ("F16", keybd_event.VK_F16), ("F17", keybd_event.VK_F17),
   ("F18", keybd_event.VK_F18), ("F19", keybd_event.VK_F19), ("F20", keybd_event.VK_F20),
   ("MINUS", keybd_event.VK_MINUS), ("EQUAL", keybd_event.VK_EQUAL),
   ("TAB", keybd_event.VK_TAB), ("ENTER", keybd_event.VK_ENTER),
   ("SEMICOLON", keybd_event.VK_SEMICOLON), ("GRAVE", keybd_event.VK_GRAVE),
   ("BACKSLASH", keybd_event.VK_BACKSLASH), ("COMMA", keybd_event.VK_COMMA),
   ("SLASH", keybd_event.VK_SLASH), ("SPACE", keybd_event.VK_SPACE),
   ("CAPSLOCK", keybd_event.VK_CAPSLOCK), ("PAGEUP", keybd_event.VK_PAGEUP),
   ("PAGEDOWN", keybd_event.VK_PAGEDOWN), ("END", keybd_event.VK_END),
   ("HOME", keybd_event.VK_HOME), ("LEFT", keybd_event.VK_LEFT), ("UP", keybd_event.VK_UP),
   ("RIGHT", keybd_event.VK_RIGHT), ("DOWN", keybd_event.VK_DOWN),
   ("DELETE", keybd_event.VK_DELETE), ("HELP", keybd_event.VK_HELP)]

/-- getKeyCodeByKeyName maps key names to virtual key codes
(`src/app/util.go`, lines 61-246). -/
def getKeyCodeByKeyName (K : KeyTable) (keyName : String) : Int :=
  switchReturn K keyName caseClauses

/-- The case labels of `getKeyCodeByKeyName` in `src/app/util.go`. -/
def caseLabels : List String := caseClauses.map Prod.fst

end App

/-! ## `src/util.go` -/

namespace Root

/-- The `case` clauses of `getKeyCodeByKeyName` in `src/util.go`, in source
order: the label and the constant returned. -/
def caseClauses : List (String × keybd_event) :=
  [("SP1", keybd_event.VK_SP1), ("SP2", keybd_event.VK_SP2), ("SP3", keybd_event.VK_SP3),
   ("SP4", keybd_event.VK_SP4), ("SP5", keybd_event.VK_SP5), ("SP6", keybd_event.VK_SP6),
   ("SP7", keybd_event.VK_SP7), ("SP8", keybd_event.VK_SP8), ("SP9", keybd_event.VK_SP9),
   ("SP10", keybd_event.VK_SP10), ("SP11", keybd_event.VK_SP11), ("SP12", keybd_event.VK_SP12),
   ("ESC", keybd_event.VK_ESC), ("1", keybd_event.VK_1), ("2", keybd_event.VK_2),
   ("3", keybd_event.VK_3), ("4", keybd_event.VK_4), ("5", keybd_event.VK_5),
   ("6", keybd_event.VK_6), ("7", keybd_event.VK_7), ("8", keybd_event.VK_8),
   ("9", keybd_event.VK_9), ("0", keybd_event.VK_0), ("Q", keybd_event.VK_Q),
   ("W", keybd_event.VK_W), ("E", keybd_event.VK_E), ("R", keybd_event.VK_R),
   ("T", keybd_event.VK_T), ("Y", keybd_event.VK_Y), ("U", keybd_event.VK_U),
   ("I", keybd_event.VK_I), ("O", keybd_event.VK_O), ("P", keybd_event.VK_P),
   ("A", keybd_event.VK_A), ("S", keybd_event.VK_S), ("D", keybd_event.VK_D),
   ("F", keybd_event.VK_F), ("G", keybd_event.VK_G), ("H", keybd_event.VK_H),
   ("J", keybd_event.VK_J), ("K", keybd_event.VK_K), ("L", keybd_event.VK_L),
   ("Z", keybd_event.VK_Z), ("X", keybd_event.VK_X), ("C", keybd_event.VK_C),
   ("V", keybd_event.VK_V), ("B", keybd_event.VK_B), ("N", keybd_event.VK_N),
   ("M", keybd_event.VK_M), ("F1", keybd_event.VK_F1), ("F2", keybd_event.VK_F2),
   ("F3", keybd_event.VK_F3), ("F4", keybd_event.VK_F4), ("F5", keybd_event.VK_F5),
   ("F6", keybd_event.VK_F6), ("F7", keybd_event.VK_F7), ("F8", keybd_event.VK_F8),
   ("F9", keybd_event.VK_F9), ("F10", keybd_event.VK_F10), ("F11", keybd_event.VK_F11),
   ("F12", keybd_event.VK_F12), ("F13", keybd_event.VK_F13), ("F14", keybd_event.VK_F14),
   ("F15", keybd_event.VK_F15), ("F16", keybd_event.VK_F16), ("F17", keybd_event.VK_F17),
   ("F18", keybd_event.VK_F18), ("F19", keybd_event.VK_F19), ("F20", keybd_event.VK_F20),
   ("F21", keybd_event.VK_F21), ("F22", keybd_event.VK_F22), ("F23", keybd_event.VK_F23),
   ("F24", keybd_event.VK_F24), ("NUMLOCK", keybd_event.VK_NUMLOCK),
   ("SCROLLLOCK", keybd_event.VK_SCROLLLOCK), ("RESERVED", keybd_event.VK_RESERVED),
   ("MINUS", keybd_event.VK_MINUS), ("EQUAL", keybd_event.VK_EQUAL),
   ("BACKSPACE", keybd_event.VK_BACKSPACE), ("TAB", keybd_event.VK_TAB),
   ("LEFTBRACE", keybd_event.VK_LEFTBRACE), ("RIGHTBRACE", keybd_event.VK_RIGHTBRACE),
   ("ENTER", keybd_event.VK_ENTER), ("SEMICOLON", keybd_event.VK_SEMICOLON),
   ("APOSTROPHE", keybd_event.VK_APOSTROPHE), ("GRAVE", keybd_event.VK_GRAVE),
   ("BACKSLASH", keybd_event.VK_BACKSLASH), ("COMMA", keybd_event.VK_COMMA),
   ("DOT", keybd_event.VK_DOT), ("SLASH", keybd_event.VK_SLASH),
   ("KPASTERISK", keybd_event.VK_KPASTERISK), ("SPACE", keybd_event.VK_SPACE),
   ("CAPSLOCK", keybd_event.VK_CAPSLOCK), ("KP0", keybd_event.VK_KP0),
   ("KP1", keybd_event.VK_KP1), ("KP2", keybd_event.VK_KP2), ("KP3", keybd_event.VK_KP3),
   ("KP4", keybd_event.VK_KP4), ("KP5", keybd_event.VK_KP5), ("KP6", keybd_event.VK_KP6),
   ("KP7", keybd_event.VK_KP7), ("KP8", keybd_event.VK_KP8), ("KP9", keybd_event.VK_KP9),
   ("KPMINUS", keybd_event.VK_KPMINUS), ("KPPLUS", keybd_event.VK_KPPLUS),
   ("KPDOT", keybd_event.VK_KPDOT), ("LBUTTON", keybd_event.VK_LBUTTON),
   ("RBUTTON", keybd_event.VK_RBUTTON), ("CANCEL", keybd_event.VK_CANCEL),
   ("MBUTTON", keybd_event.VK_MBUTTON), ("XBUTTON1", keybd_event.VK_XBUTTON1),
   ("XBUTTON2", keybd_event.VK_XBUTTON2), ("BACK", keybd_event.VK_BACK),
   ("CLEAR", keybd_event.VK_CLEAR), ("PAUSE", keybd_event.VK_PAUSE),
   ("CAPITAL", keybd_event.VK_CAPITAL), ("KANA", keybd_event.VK_KANA),
   ("HANGUEL", keybd_event.VK_HANGUEL), ("HANGUL", keybd_event.VK_HANGUL),
   ("JUNJA", keybd_event.VK_JUNJA), ("FINAL", keybd_event.VK_FINAL),
   ("HANJA", keybd_event.VK_HANJA), ("KANJI", keybd_event.VK_KANJI),
   ("CONVERT", keybd_event.VK_CONVERT), ("NONCONVERT", keybd_event.VK_NONCONVERT),
   ("ACCEPT", keybd_event.VK_ACCEPT), ("MODECHANGE", keybd_event.VK_MODECHANGE),
   ("PAGEUP", keybd_event.VK_PAGEUP), ("PAGEDOWN", keybd_event.VK_PAGEDOWN),
   ("END", keybd_event.VK_END), ("HOME", keybd_event.VK_HOME), ("LEFT", keybd_event.VK_LEFT),
   ("UP", keybd_event.VK_UP), ("RIGHT", keybd_event.VK_RIGHT), ("DOWN", keybd_event.VK_DOWN),
   ("SELECT", keybd_event.VK_SELECT), ("PRINT", keybd_event.VK_PRINT),
   ("EXECUTE", keybd_event.VK_EXECUTE), ("SNAPSHOT", keybd_event.VK_SNAPSHOT),
   ("INSERT", keybd_event.VK_INSERT), ("DELETE", keybd_event.VK_DELETE),
   ("HELP", keybd_event.VK_HELP), ("SCROLL", keybd_event.VK_SCROLL),
   ("LMENU", keybd_event.VK_LMENU), ("RMENU", keybd_event.VK_RMENU),
   ("BROWSER_BACK", keybd_event.VK_BROWSER_BACK),
   ("BROWSER_FORWARD", keybd_event.VK_BROWSER_FORWARD),
   ("BROWSER_REFRESH", keybd_event.VK_BROWSER_REFRESH),
   ("BROWSER_STOP", keybd_event.VK_BROWSER_STOP),
   ("BROWSER_SEARCH", keybd_event.VK_BROWSER_SEARCH),
   ("BROWSER_FAVORITES", keybd_event.VK_BROWSER_FAVORITES),
   ("BROWSER_HOME", keybd_event.VK_BROWSER_HOME), ("VOLUME_MUTE", keybd_event.VK_VOLUME_MUTE),
   ("VOLUME_DOWN", keybd_event.VK_VOLUME_DOWN), ("VOLUME_UP", keybd_event.VK_VOLUME_UP),
   ("MEDIA_NEXT_TRACK", keybd_event.VK_MEDIA_NEXT_TRACK),
   ("MEDIA_PREV_TRACK", keybd_event.VK_MEDIA_PREV_TRACK),
   ("MEDIA_STOP", keybd_event.VK_MEDIA_STOP),
   ("MEDIA_PLAY_PAUSE", keybd_event.VK_MEDIA_PLAY_PAUSE),
   ("LAUNCH_MAIL", keybd_event.VK_LAUNCH_MAIL),
   ("LAUNCH_MEDIA_SELECT", keybd_event.VK_LAUNCH_MEDIA_SELECT),
   ("LAUNCH_APP1", keybd_event.VK_LAUNCH_APP1), ("LAUNCH_APP2", keybd_event.VK_LAUNCH_APP2),
   ("OEM_1", keybd_event.VK_OEM_1), ("OEM_PLUS", keybd_event.VK_OEM_PLUS),
   ("OEM_COMMA", keybd_event.VK_OEM_COMMA), ("OEM_MINUS", keybd_event.VK_OEM_MINUS),
   ("OEM_PERIOD", keybd_event.VK_OEM_PERIOD), ("OEM_2", keybd_event.VK_OEM_2),
   ("OEM_3", keybd_event.VK_OEM_3), ("OEM_4", keybd_event.VK_OEM_4),
   ("OEM_5", keybd_event.VK_OEM_5), ("OEM_6", keybd_event.VK_OEM_6),
   ("OEM_7", keybd_event.VK_OEM_7), ("OEM_8", keybd_event.VK_OEM_8),
   ("OEM_102", keybd_event.VK_OEM_102), ("PROCESSKEY", keybd_event.VK_PROCESSKEY),
   ("PACKET", keybd_event.VK_PACKET), ("ATTN", keybd_event.VK_ATTN),
   ("CRSEL", keybd_event.VK_CRSEL), ("EXSEL", keybd_event.VK_EXSEL),
   ("EREOF", keybd_event.VK_EREOF), ("PLAY", keybd_event.VK_PLAY),
   ("ZOOM", keybd_event.VK_ZOOM), ("NONAME", keybd_event.VK_NONAME),
   ("PA1", keybd_event.VK_PA1), ("OEM_CLEAR", keybd_event.VK_OEM_CLEAR)]

/-- getKeyCodeByKeyName maps key names to virtual key codes
(`src/util.go`, lines 56-435). -/
def getKeyCodeByKeyName (K : KeyTable) (keyName : String) : Int :=
  switchReturn K keyName caseClauses

/-- The case labels of `getKeyCodeByKeyName` in `src/util.go`. -/
def caseLabels : List String := caseClauses.map Prod.fst

end Root

/-- Modelled from the spec: the values of the `keybd_event.VK_*` constants are
missing from the repository (they are declared by the third-party package);
the data model of the spec makes a KeyCode "an opaque positive integer" with
`0` reserved for "unresolved/invalid".  A table is valid when every constant
is strictly positive. -/
def KeyTable.Valid (K : KeyTable) : Prop := ∀ c, 0 < K c

/-! ## Standard-library operations used by the handlers -/

/-- Go `strings.Split(s, sep)` for a one-character separator: the substrings
between consecutive separators, in order; a string without separator yields
itself as the only element. -/
def strings.Split (s : String) (sep : Char) : List String :=
  (s.data.splitOn sep).map String.mk

/-- Go `strings.Join(elems, sep)`. -/
def strings.Join (elems : List String) (sep : String) : String :=
  sep.intercalate elems

/-- Ordered key/value pairs standing for an `http.Header` or a `url.Values`. -/
abbrev Values := List (String × String)

/-- `Get(key)`: the first value stored under `key`, and `""` when absent. -/
def Values.Get (v : Values) (key : String) : String :=
  match v.lookup key with
  | some x => x
  | none => ""

/-- The parts of an `*http.Request` the handlers read. -/
structure Request where
  /-- Field `r.Method`. -/
  Method : String
  /-- Field `r.Header`. -/
  Header : Values
  /-- Result of `r.URL.Query()`. -/
  Query : Values
  deriving DecidableEq, Repr

/-- One invocation `simulateKeyPress(keyCodes, shift, ctrl, alt, super)`. -/
structure KeyPress where
  keyCodes : List Int
  hasShift : Bool
  hasCtrl : Bool
  hasAlt : Bool
  hasSuper : Bool
  deriving DecidableEq, Repr

/-- Observable outcome of running a handler on one request. -/
structure Response where
  /-- Status code written to the `http.ResponseWriter`. -/
  status : Nat
  /-- Bytes written to the response body. -/
  body : String
  /-- Lines passed to `log.Print`, in order. -/
  logged : List String
  /-- Invocations of `simulateKeyPress`, in order. -/
  presses : List KeyPress
  deriving DecidableEq, Repr

/-- Go `http.Error(w, msg, code)`: status `code`, body `msg` and a newline. -/
def httpError (msg : String) (code : Nat) : Response :=
  { status := code, body := msg ++ "\n", logged := [], presses := [] }

/-- Go `http.StatusText` on the two codes the handlers pass to it. -/
def StatusText (code : Nat) : String :=
  if code = 405 then "Method Not Allowed"
  else if code = 401 then "Unauthorized"
  else ""

/-! ## `src/app/server.go` -/

namespace App

/-- healthHandler responds with an HTTP status OK for health checks. -/
def healthHandler (r : Request) : Response :=
  if r.Method ≠ "GET" then httpError (StatusText 405) 405
  else { status := 200, body := "", logged := [], presses := [] }

/-- The modifier suffixes appended to `logMessage` (lines 75-86 and 135-146):
Ctrl, Alt, Shift, Super, in this order. -/
def appendModifiers (logMessage : String) (shift ctrl alt super : Bool) : String :=
  let m1 := if ctrl then logMessage ++ " | Ctrl" else logMessage
  let m2 := if alt then m1 ++ " | Alt" else m1
  let m3 := if shift then m2 ++ " | Shift" else m2
  if super then m3 ++ " | Super" else m3

/-- keyPressHandler simulates a key press based on the provided key code and
modifiers (`src/app/server.go`, lines 40-91). -/
def keyPressHandler (K : KeyTable) (authToken : String) (r : Request) : Response :=
  if r.Method ≠ "POST" then httpError (StatusText 405) 405
  else
    let token := r.Header.Get "Authorization"
    if token = "" ∨ token ≠ authToken then httpError (StatusText 401) 401
    else
      let keyCode := r.Query.Get "keyCode"
      let shift := r.Query.Get "shift" == "true"
      let ctrl := r.Query.Get "ctrl" == "true"
      let alt := r.Query.Get "alt" == "true"
      let super := r.Query.Get "super" == "true"
      if keyCode = "" then httpError "keyCode parameter is required" 400
      else
        let vkCode := getKeyCodeByKeyName K keyCode
        if vkCode = 0 then httpError "Invalid keyCode provided" 400
        else
          let keyCodes : List Int := [] ++ [vkCode]
          let logMessage :=
            appendModifiers ("Key press simulated for keyCode: " ++ keyCode) shift ctrl alt super
          { status := 200, body := logMessage, logged := [logMessage],
            presses := [⟨keyCodes, shift, ctrl, alt, super⟩] }

/-- The loop of `multiKeyHandler` (lines 123-130): each name is resolved in
turn and appended to `keyCodes`; the first name resolving to `0` aborts the
loop (`none`, the handler then answers 400). -/
def mapKeyNames (K : KeyTable) : List String → List Int → Option (List Int)
  | [], keyCodes => some keyCodes
  | keyName :: rest, keyCodes =>
    let vkCode := getKeyCodeByKeyName K keyName
    if vkCode = 0 then none
    else mapKeyNames K rest (keyCodes ++ [vkCode])

/-- multiKeyHandler simulates one press of several keys with modifiers
(`src/app/server.go`, lines 94-151). -/
def multiKeyHandler (K : KeyTable) (authToken : String) (r : Request) : Response :=
  if r.Method ≠ "POST" then httpError (StatusText 405) 405
  else
    let token := r.Header.Get "Authorization"
    if token = "" ∨ token ≠ authToken then httpError (StatusText 401) 401
    else
      let keysParam := r.Query.Get "keyCodes"
      let shift := r.Query.Get "shift" == "true"
      let ctrl := r.Query.Get "ctrl" == "true"
      let alt := r.Query.Get "alt" == "true"
      let super := r.Query.Get "super" == "true"
      if keysParam = "" then httpError "keyCodes parameter is required" 400
      else
        let keyNames := strings.Split keysParam ','
        match mapKeyNames K keyNames [] with
        | none => httpError "Invalid keyCodes provided" 400
        | some keyCodes =>
          let logMessage :=
            appendModifiers ("Key press simulated for keyCodes: " ++ strings.Join keyNames " | ")
              shift ctrl alt super
          { status := 200, body := logMessage, logged := [logMessage],
            presses := [⟨keyCodes, shift, ctrl, alt, super⟩] }

end App

/-! ## Fixtures used to instantiate the theorems -/

/-- A table giving every constant a distinct positive value (its position in
the enumeration plus one); it stands for no particular platform. -/
def sampleTable : KeyTable := fun c => (c.toCtorIdx : Int) + 1

/-- An authorized `POST` with the given query and token `"keycontrol"`. -/
def postWith (query : Values) : Request :=
  { Method := "POST", Header := [("Authorization", "keycontrol")], Query := query }

/-- The names the minimum-coverage requirement of the registry lists: digits,
letters, `F1`..`F24`, the navigation keys, the editing keys, the
numeric-keypad keys (under the names `src/util.go` gives them) and the
special slots `SP1`..`SP12`. -/
def minimumCoverage : List String :=
  ["0", "1", "2", "3", "4", "5", "6", "7", "8", "9",
   "A", "B", "C", "D", "E", "F", "G", "H", "I", "J", "K", "L", "M",
   "N", "O", "P", "Q", "R", "S", "T", "U", "V", "W", "X", "Y", "Z",
   "F1", "F2", "F3", "F4", "F5", "F6", "F7", "F8", "F9", "F10", "F11", "F12",
   "F13", "F14", "F15", "F16", "F17", "F18", "F19", "F20", "F21", "F22", "F23", "F24",
   "LEFT", "RIGHT", "UP", "DOWN", "HOME", "END", "PAGEUP", "PAGEDOWN", "INSERT", "DELETE",
   "ENTER", "TAB", "BACKSPACE", "SPACE", "ESC",
   "KP0", "KP1", "KP2", "KP3", "KP4", "KP5", "KP6", "KP7", "KP8", "KP9",
   "KPMINUS", "KPPLUS", "KPDOT", "KPASTERISK",
   "SP1", "SP2", "SP3", "SP4", "SP5", "SP6", "SP7", "SP8", "SP9", "SP10", "SP11", "SP12"]

/-- The names of `minimumCoverage` that are no case label of the registry in
`src/app/util.go`. -/
def notInAppRegistry : List String :=
  ["F21", "F22", "F23", "F24", "INSERT", "BACKSPACE",
   "KP0", "KP1", "KP2", "KP3", "KP4", "KP5", "KP6", "KP7", "KP8", "KP9",
   "KPMINUS", "KPPLUS", "KPDOT", "KPASTERISK"]

/-! ## The injection dispatcher, `simulateKeyPress` -/

/-- What `simulateKeyPress` does to the key binding, the clock and the
process, one constructor per call made in its body. -/
inductive Effect where
  /-- `keybd_event.NewKeyBonding()`. -/
  | NewKeyBonding
  /-- `time.Sleep` of the given number of milliseconds. -/
  | Sleep (milliseconds : Nat)
  /-- `kb.SetKeys(...)` with the codes given. -/
  | SetKeys (keys : List Int)
  /-- `kb.HasSHIFT(b)`. -/
  | HasSHIFT (b : Bool)
  /-- `kb.HasCTRLR(b)`. -/
  | HasCTRLR (b : Bool)
  /-- `kb.HasALT(b)`. -/
  | HasALT (b : Bool)
  /-- `kb.HasSuper(b)`. -/
  | HasSuper (b : Bool)
  /-- `kb.Launching()`. -/
  | Launching
  /-- `log.Fatalf(...)`: the process exits. -/
  | Fatalf
  deriving DecidableEq, Repr

/-- The four modifier setters of the key binding. -/
def Effect.isModifier : Effect → Bool
  | .HasSHIFT _ => true
  | .HasCTRLR _ => true
  | .HasALT _ => true
  | .HasSuper _ => true
  | _ => false

namespace App

/-- simulateKeyPress simulates a key press event based on the provided
parameters (`src/app/util.go`, lines 34-58).  `GOOS` is `runtime.GOOS`;
`newErr` and `launchErr` tell whether `NewKeyBonding` and `Launching` return an
error.  The codes are the ones the caller passes (the handlers pass the whole
slice). -/
def simulateKeyPress (GOOS : String) (newErr launchErr : Bool) (vkCode : List Int)
    (hasShift hasCtrl hasAlt hasSuper : Bool) : List Effect :=
  if newErr then [Effect.NewKeyBonding, Effect.Fatalf]
  else
    [Effect.NewKeyBonding] ++
      (if GOOS = "linux" then [Effect.Sleep 2000] else []) ++
      [Effect.SetKeys vkCode, Effect.HasSHIFT hasShift, Effect.HasCTRLR hasCtrl,
        Effect.HasALT hasAlt, Effect.HasSuper hasSuper, Effect.Launching] ++
      (if launchErr then [Effect.Fatalf] else [Effect.Sleep 100])

end App

namespace Root

/-- simulateKeyPress simulates a key press event based on the provided
parameters (`src/util.go`, lines 34-53); parameters as for the one of
`src/app/util.go`. -/
def simulateKeyPress (newErr launchErr : Bool) (vkCode : List Int)
    (hasShift hasCtrl hasAlt hasSuper : Bool) : List Effect :=
  if newErr then [Effect.NewKeyBonding, Effect.Fatalf]
  else
    [Effect.NewKeyBonding] ++
      [Effect.SetKeys vkCode, Effect.HasSHIFT hasShift, Effect.HasCTRLR hasCtrl,
        Effect.HasALT hasAlt, Effect.HasSuper hasSuper, Effect.Launching] ++
      (if launchErr then [Effect.Fatalf] else [Effect.Sleep 100])

end Root

/-- The effects of the invocation `p` of `simulateKeyPress` made by a handler
(`src/app`). -/
def KeyPress.effects (GOOS : String) (newErr launchErr : Bool) (p : KeyPress) : List Effect :=
  App.simulateKeyPress GOOS newErr launchErr p.keyCodes p.hasShift p.hasCtrl p.hasAlt p.hasSuper

/-- The leftmost segment resolving to the invalid code, if any: the segment an
`InvalidKey` diagnostic would have to name. -/
def firstOffending (K : KeyTable) (keyNames : List String) : Option String :=
  keyNames.find? (fun keyName => App.getKeyCodeByKeyName K keyName == 0)

/-- The text of a boolean query parameter. -/
def boolParam (b : Bool) : String := if b then "true" else "false"

/-- The effects of a process that serves the given invocations of
`simulateKeyPress` one after the other, none of them failing (`src/app`). -/
def processTrace (GOOS : String) : List KeyPress → List Effect
  | [] => []
  | p :: rest => p.effects GOOS false false ++ processTrace GOOS rest

/-- A table in which `VK_RESERVED` is `0`, the number of the reserved key code
of Linux (`KEY_RESERVED`), every other constant being positive. -/
def reservedZeroTable : KeyTable :=
  fun c => if c = keybd_event.VK_RESERVED then 0 else sampleTable c

/-- A table in which `VK_A` is `0`, the number of the virtual key code of the
letter A on macOS (`kVK_ANSI_A`), every other constant being positive. -/
def ansiAZeroTable : KeyTable :=
  fun c => if c = keybd_event.VK_A then 0 else sampleTable c

/-! ## General lemmas -/

theorem switchReturn_of_not_mem (K : KeyTable) (tag : String)
    (cs : List (String × keybd_event)) (h : tag ∉ cs.map Prod.fst) :
    switchReturn K tag cs = 0 := by
  induction cs with
  | nil => rfl
  | cons p rest ih =>
    obtain ⟨label, c⟩ := p
    simp only [List.map_cons, List.mem_cons, not_or] at h
    simp only [switchReturn, if_neg h.1]
    exact ih h.2

theorem switchReturn_of_mem (K : KeyTable) (tag : String)
    (cs : List (String × keybd_event)) (h : tag ∈ cs.map Prod.fst) :
    ∃ c, (tag, c) ∈ cs ∧ switchReturn K tag cs = K c := by
  induction cs with
  | nil => simp at h
  | cons p rest ih =>
    obtain ⟨label, c⟩ := p
    by_cases hl : tag = label
    · subst hl
      exact ⟨c, List.mem_cons_self _ _, by simp [switchReturn]⟩
    · simp only [List.map_cons, List.mem_cons, hl, false_or] at h
      obtain ⟨d, hd, hs⟩ := ih h
      exact ⟨d, List.mem_cons_of_mem _ hd, by simp only [switchReturn, if_neg hl, hs]⟩

theorem switchReturn_pos (K : KeyTable) (hK : K.Valid) (tag : String)
    (cs : List (String × keybd_event)) (h : tag ∈ cs.map Prod.fst) :
    0 < switchReturn K tag cs := by
  obtain ⟨c, -, hc⟩ := switchReturn_of_mem K tag cs h
  rw [hc]
  exact hK c

theorem sampleTable_valid : sampleTable.Valid := by
  intro c
  unfold sampleTable
  have : (0 : Int) ≤ (c.toCtorIdx : Int) := Int.ofNat_nonneg _
  omega

theorem Values.Get_eq_empty_iff (v : Values) (key : String) :
    v.Get key = "" ↔ v.lookup key = none ∨ v.lookup key = some "" := by
  unfold Values.Get
  cases h : v.lookup key <;> simp

namespace App

theorem mapKeyNames_eq_none_iff (K : KeyTable) (names : List String) (acc : List Int) :
    mapKeyNames K names acc = none ↔ ∃ n ∈ names, getKeyCodeByKeyName K n = 0 := by
  induction names generalizing acc with
  | nil => simp [mapKeyNames]
  | cons n rest ih =>
    by_cases h0 : getKeyCodeByKeyName K n = 0
    · simp [mapKeyNames, h0]
    · simp [mapKeyNames, h0, ih]

theorem mapKeyNames_eq_some (K : KeyTable) (names : List String) (acc codes : List Int)
    (h : mapKeyNames K names acc = some codes) :
    codes = acc ++ names.map (getKeyCodeByKeyName K) := by
  induction names generalizing acc with
  | nil => simpa [mapKeyNames, eq_comm] using h
  | cons n rest ih =>
    by_cases h0 : getKeyCodeByKeyName K n = 0
    · simp [mapKeyNames, h0] at h
    · simp only [mapKeyNames, h0, if_false] at h
      rw [ih _ h]
      simp

theorem mapKeyNames_of_all_ne_zero (K : KeyTable) (names : List String) (acc : List Int)
    (h : ∀ n ∈ names, getKeyCodeByKeyName K n ≠ 0) :
    mapKeyNames K names acc = some (acc ++ names.map (getKeyCodeByKeyName K)) := by
  cases hm : mapKeyNames K names acc with
  | none =>
    obtain ⟨n, hn, h0⟩ := (mapKeyNames_eq_none_iff K names acc).1 hm
    exact absurd h0 (h n hn)
  | some codes => rw [mapKeyNames_eq_some K names acc codes hm]

end App

/-! ## Properties of the handlers -/

/-- C1. All-or-nothing validation on `/press/multi`: an authorized `POST`
(non-empty configured token, matching `Authorization` header) whose `keyCodes`
parameter, split on `,`, has at least one segment resolving to `0` is answered
with 400 and `simulateKeyPress` is not invoked, wherever the bad segment
stands and however many other segments resolve. -/
theorem multiKeyHandler_all_or_nothing (K : KeyTable) (authToken : String) (r : Request)
    (hmethod : r.Method = "POST") (htoken : authToken ≠ "")
    (hauth : r.Header.Get "Authorization" = authToken)
    (hbad : ∃ seg ∈ strings.Split (r.Query.Get "keyCodes") ',',
      App.getKeyCodeByKeyName K seg = 0) :
    (App.multiKeyHandler K authToken r).status = 400 ∧
      (App.multiKeyHandler K authToken r).presses = [] := by
  have hnone := (App.mapKeyNames_eq_none_iff K _ []).2 hbad
  unfold App.multiKeyHandler
  simp only [hmethod, hauth, htoken, ne_eq, not_true_eq_false, if_false, or_self, hnone]
  split <;> simp [httpError]

/-- Witness for C1: `keyCodes=A,BOGUS,B`. -/
theorem multiKeyHandler_all_or_nothing_witness :
    (App.multiKeyHandler sampleTable "keycontrol" (postWith [("keyCodes", "A,BOGUS,B")])).status
        = 400 ∧
      (App.multiKeyHandler sampleTable "keycontrol"
        (postWith [("keyCodes", "A,BOGUS,B")])).presses = [] :=
  multiKeyHandler_all_or_nothing sampleTable "keycontrol" (postWith [("keyCodes", "A,BOGUS,B")])
    (by decide) (by decide) (by decide) ⟨"BOGUS", by decide, by decide⟩

/-- C2. Order preservation on `/press/multi`: whenever the handler answers 200,
`simulateKeyPress` was invoked exactly once, with the code sequence obtained by
applying `getKeyCodeByKeyName` to each segment of `keyCodes` split on `,`, in
the same left-to-right order and with the same length. -/
theorem multiKeyHandler_order_preserved (K : KeyTable) (authToken : String) (r : Request)
    (hok : (App.multiKeyHandler K authToken r).status = 200) :
    ∃ p, (App.multiKeyHandler K authToken r).presses = [p] ∧
      p.keyCodes = (strings.Split (r.Query.Get "keyCodes") ',').map (App.getKeyCodeByKeyName K) ∧
      p.keyCodes.length = (strings.Split (r.Query.Get "keyCodes") ',').length := by
  unfold App.multiKeyHandler at hok ⊢
  by_cases hmethod : r.Method = "POST"
  swap
  · simp [hmethod, httpError] at hok
  by_cases hauth : r.Header.Get "Authorization" = "" ∨ r.Header.Get "Authorization" ≠ authToken
  · simp [hmethod, hauth, httpError] at hok
  by_cases hkeys : r.Query.Get "keyCodes" = ""
  · simp [hmethod, hauth, hkeys, httpError] at hok
  simp only [hmethod, hauth, hkeys, ne_eq, not_true_eq_false, if_false] at hok ⊢
  cases hm : App.mapKeyNames K (strings.Split (r.Query.Get "keyCodes") ',') [] with
  | none => simp [hm, httpError] at hok
  | some codes =>
    have hc := App.mapKeyNames_eq_some K _ [] codes hm
    simp only [List.nil_append] at hc
    exact ⟨_, rfl, hc, by rw [hc, List.length_map]⟩

/-- Witness for C2: `keyCodes=A,B,C` dispatches `[code(A), code(B), code(C)]`. -/
theorem multiKeyHandler_order_preserved_witness :
    ∃ p, (App.multiKeyHandler sampleTable "keycontrol"
        (postWith [("keyCodes", "A,B,C")])).presses = [p] ∧
      p.keyCodes = (strings.Split ((postWith [("keyCodes", "A,B,C")]).Query.Get "keyCodes") ',').map
        (App.getKeyCodeByKeyName sampleTable) ∧
      p.keyCodes.length =
        (strings.Split ((postWith [("keyCodes", "A,B,C")]).Query.Get "keyCodes") ',').length :=
  multiKeyHandler_order_preserved sampleTable "keycontrol" (postWith [("keyCodes", "A,B,C")])
    (by decide)

/-- C3. Unauthorized short-circuit: a `POST` to `/press` or `/press/multi` whose
`Authorization` header differs from the configured token is answered with 401
and `simulateKeyPress` is not invoked, whatever the query parameters are. -/
theorem unauthorized_short_circuit (K : KeyTable) (authToken : String) (r : Request)
    (hmethod : r.Method = "POST") (hauth : r.Header.Get "Authorization" ≠ authToken) :
    ((App.keyPressHandler K authToken r).status = 401 ∧
        (App.keyPressHandler K authToken r).presses = []) ∧
      ((App.multiKeyHandler K authToken r).status = 401 ∧
        (App.multiKeyHandler K authToken r).presses = []) := by
  unfold App.keyPressHandler App.multiKeyHandler
  simp [hmethod, hauth, httpError]

/-- Witness for C3: header `wrong` against token `keycontrol`, with a valid key,
on both routes. -/
theorem unauthorized_short_circuit_witness :
    ((App.keyPressHandler sampleTable "keycontrol"
          ⟨"POST", [("Authorization", "wrong")], [("keyCode", "A"), ("keyCodes", "A,B")]⟩).status
          = 401 ∧
        (App.keyPressHandler sampleTable "keycontrol"
          ⟨"POST", [("Authorization", "wrong")], [("keyCode", "A"), ("keyCodes", "A,B")]⟩).presses
          = []) ∧
      ((App.multiKeyHandler sampleTable "keycontrol"
          ⟨"POST", [("Authorization", "wrong")], [("keyCode", "A"), ("keyCodes", "A,B")]⟩).status
          = 401 ∧
        (App.multiKeyHandler sampleTable "keycontrol"
          ⟨"POST", [("Authorization", "wrong")], [("keyCode", "A"), ("keyCodes", "A,B")]⟩).presses
          = []) :=
  unauthorized_short_circuit sampleTable "keycontrol"
    ⟨"POST", [("Authorization", "wrong")], [("keyCode", "A"), ("keyCodes", "A,B")]⟩
    (by decide) (by decide)

/-- C4. Fail closed on empty token: a `POST` to `/press` or `/press/multi` whose
`Authorization` header is absent or empty is answered with 401 and nothing is
dispatched, for every configured `authToken`, the empty string included. -/
theorem empty_token_fails_closed (K : KeyTable) (authToken : String) (r : Request)
    (hmethod : r.Method = "POST")
    (hempty : r.Header.lookup "Authorization" = none ∨
      r.Header.lookup "Authorization" = some "") :
    ((App.keyPressHandler K authToken r).status = 401 ∧
        (App.keyPressHandler K authToken r).presses = []) ∧
      ((App.multiKeyHandler K authToken r).status = 401 ∧
        (App.multiKeyHandler K authToken r).presses = []) := by
  have hget : r.Header.Get "Authorization" = "" := (Values.Get_eq_empty_iff _ _).2 hempty
  unfold App.keyPressHandler App.multiKeyHandler
  simp [hmethod, hget, httpError]

/-- Witness for C4: no `Authorization` header while the configured token is
itself empty. -/
theorem empty_token_fails_closed_witness :
    ((App.keyPressHandler sampleTable "" ⟨"POST", [], [("keyCode", "A")]⟩).status = 401 ∧
        (App.keyPressHandler sampleTable "" ⟨"POST", [], [("keyCode", "A")]⟩).presses = []) ∧
      ((App.multiKeyHandler sampleTable "" ⟨"POST", [], [("keyCode", "A")]⟩).status = 401 ∧
        (App.multiKeyHandler sampleTable "" ⟨"POST", [], [("keyCode", "A")]⟩).presses = []) :=
  empty_token_fails_closed sampleTable "" ⟨"POST", [], [("keyCode", "A")]⟩
    (by decide) (Or.inl (by decide))

/-! ## Properties of the registries -/

set_option maxRecDepth 200000 in
theorem App.caseLabels_subset_Root : ∀ l ∈ App.caseLabels, l ∈ Root.caseLabels := by decide

set_option maxRecDepth 200000 in
theorem Root.caseLabels_chars :
    ∀ l ∈ Root.caseLabels, ∀ c ∈ l.data,
      c.isLower = false ∧ c.isWhitespace = false ∧ (c == ',') = false ∧
        (c.isUpper || c.isDigit || c == '_') = true := by
  decide

theorem appRegistry_of_not_label (K : KeyTable) (keyName : String)
    (h : keyName ∉ App.caseLabels) : App.getKeyCodeByKeyName K keyName = 0 :=
  switchReturn_of_not_mem K keyName App.caseClauses h

theorem rootRegistry_of_not_label (K : KeyTable) (keyName : String)
    (h : keyName ∉ Root.caseLabels) : Root.getKeyCodeByKeyName K keyName = 0 :=
  switchReturn_of_not_mem K keyName Root.caseClauses h

theorem appRegistry_ne_zero_iff (K : KeyTable) (hK : K.Valid) (keyName : String) :
    App.getKeyCodeByKeyName K keyName ≠ 0 ↔ keyName ∈ App.caseLabels := by
  constructor
  · intro h
    by_contra hn
    exact h (appRegistry_of_not_label K keyName hn)
  · intro h
    exact ne_of_gt (switchReturn_pos K hK keyName App.caseClauses h)

theorem rootRegistry_ne_zero_iff (K : KeyTable) (hK : K.Valid) (keyName : String) :
    Root.getKeyCodeByKeyName K keyName ≠ 0 ↔ keyName ∈ Root.caseLabels := by
  constructor
  · intro h
    by_contra hn
    exact h (rootRegistry_of_not_label K keyName hn)
  · intro h
    exact ne_of_gt (switchReturn_pos K hK keyName Root.caseClauses h)

/-- Every string holding a character that occurs in no case label (a lower-case
letter, a whitespace character, a comma, or anything else than an upper-case
ASCII letter, a digit or an underscore) is a case label of neither registry. -/
theorem not_label_of_foreign_char (keyName : String)
    (h : ∃ c ∈ keyName.data, c.isLower = true ∨ c.isWhitespace = true ∨ c = ',' ∨
      (c.isUpper || c.isDigit || c == '_') = false) :
    keyName ∉ App.caseLabels ∧ keyName ∉ Root.caseLabels := by
  obtain ⟨c, hc, hbad⟩ := h
  have hroot : keyName ∉ Root.caseLabels := by
    intro hmem
    obtain ⟨h1, h2, h3, h4⟩ := Root.caseLabels_chars keyName hmem c hc
    rcases hbad with hb | hb | hb | hb
    · simp [h1] at hb
    · simp [h2] at hb
    · simp [hb] at h3
    · rw [h4] at hb
      exact absurd hb (by decide)
  exact ⟨fun hmem => hroot (App.caseLabels_subset_Root keyName hmem), hroot⟩

/-- C5. The registry is total with no fabricated default: for every string that
is not one of the case labels of `getKeyCodeByKeyName` (the empty string
included), `getKeyCodeByKeyName` returns exactly `0`, in `src/app/util.go` and
in `src/util.go`, whatever the values of the `VK_*` constants. -/
theorem getKeyCodeByKeyName_unknown_is_zero (K : KeyTable) (keyName : String) :
    (keyName ∉ App.caseLabels → App.getKeyCodeByKeyName K keyName = 0) ∧
      (keyName ∉ Root.caseLabels → Root.getKeyCodeByKeyName K keyName = 0) :=
  ⟨appRegistry_of_not_label K keyName,
    rootRegistry_of_not_label K keyName⟩

set_option maxRecDepth 200000 in
/-- Witness for C5: the empty string and the name `BOGUS`. -/
theorem getKeyCodeByKeyName_unknown_is_zero_witness :
    (App.getKeyCodeByKeyName sampleTable "" = 0 ∧ Root.getKeyCodeByKeyName sampleTable "" = 0) ∧
      (App.getKeyCodeByKeyName sampleTable "BOGUS" = 0 ∧
        Root.getKeyCodeByKeyName sampleTable "BOGUS" = 0) :=
  ⟨⟨(getKeyCodeByKeyName_unknown_is_zero sampleTable "").1 (by decide),
      (getKeyCodeByKeyName_unknown_is_zero sampleTable "").2 (by decide)⟩,
    ⟨(getKeyCodeByKeyName_unknown_is_zero sampleTable "BOGUS").1 (by decide),
      (getKeyCodeByKeyName_unknown_is_zero sampleTable "BOGUS").2 (by decide)⟩⟩

theorem App.keyPressHandler_authorized (K : KeyTable) (authToken : String) (r : Request)
    (hmethod : r.Method = "POST") (htoken : authToken ≠ "")
    (hauth : r.Header.Get "Authorization" = authToken) :
    App.keyPressHandler K authToken r =
      if r.Query.Get "keyCode" = "" then httpError "keyCode parameter is required" 400
      else if App.getKeyCodeByKeyName K (r.Query.Get "keyCode") = 0 then
        httpError "Invalid keyCode provided" 400
      else
        { status := 200
          body := App.appendModifiers
            ("Key press simulated for keyCode: " ++ r.Query.Get "keyCode")
            (r.Query.Get "shift" == "true") (r.Query.Get "ctrl" == "true")
            (r.Query.Get "alt" == "true") (r.Query.Get "super" == "true")
          logged := [App.appendModifiers
            ("Key press simulated for keyCode: " ++ r.Query.Get "keyCode")
            (r.Query.Get "shift" == "true") (r.Query.Get "ctrl" == "true")
            (r.Query.Get "alt" == "true") (r.Query.Get "super" == "true")]
          presses := [⟨[App.getKeyCodeByKeyName K (r.Query.Get "keyCode")],
            r.Query.Get "shift" == "true", r.Query.Get "ctrl" == "true",
            r.Query.Get "alt" == "true", r.Query.Get "super" == "true"⟩] } := by
  unfold App.keyPressHandler
  simp only [hmethod, hauth, htoken, ne_eq, not_true_eq_false, if_false, or_self,
    List.nil_append]

theorem App.multiKeyHandler_authorized (K : KeyTable) (authToken : String) (r : Request)
    (hmethod : r.Method = "POST") (htoken : authToken ≠ "")
    (hauth : r.Header.Get "Authorization" = authToken) :
    App.multiKeyHandler K authToken r =
      if r.Query.Get "keyCodes" = "" then httpError "keyCodes parameter is required" 400
      else
        match App.mapKeyNames K (strings.Split (r.Query.Get "keyCodes") ',') [] with
        | none => httpError "Invalid keyCodes provided" 400
        | some keyCodes =>
          { status := 200
            body := App.appendModifiers
              ("Key press simulated for keyCodes: " ++
                strings.Join (strings.Split (r.Query.Get "keyCodes") ',') " | ")
              (r.Query.Get "shift" == "true") (r.Query.Get "ctrl" == "true")
              (r.Query.Get "alt" == "true") (r.Query.Get "super" == "true")
            logged := [App.appendModifiers
              ("Key press simulated for keyCodes: " ++
                strings.Join (strings.Split (r.Query.Get "keyCodes") ',') " | ")
              (r.Query.Get "shift" == "true") (r.Query.Get "ctrl" == "true")
              (r.Query.Get "alt" == "true") (r.Query.Get "super" == "true")]
            presses := [⟨keyCodes,
              r.Query.Get "shift" == "true", r.Query.Get "ctrl" == "true",
              r.Query.Get "alt" == "true", r.Query.Get "super" == "true"⟩] } := by
  unfold App.multiKeyHandler
  simp only [hmethod, hauth, htoken, ne_eq, not_true_eq_false, if_false, or_self]

theorem strings.Split_empty (sep : Char) : strings.Split "" sep = [""] := by
  simp [strings.Split, List.splitOn_nil]

theorem App.keyPressHandler_ok_iff (K : KeyTable) (authToken : String) (r : Request)
    (hmethod : r.Method = "POST") (htoken : authToken ≠ "")
    (hauth : r.Header.Get "Authorization" = authToken) :
    (App.keyPressHandler K authToken r).status = 200 ↔
      r.Query.Get "keyCode" ≠ "" ∧ App.getKeyCodeByKeyName K (r.Query.Get "keyCode") ≠ 0 := by
  rw [App.keyPressHandler_authorized K authToken r hmethod htoken hauth]
  by_cases h1 : r.Query.Get "keyCode" = ""
  · simp [h1, httpError]
  · by_cases h2 : App.getKeyCodeByKeyName K (r.Query.Get "keyCode") = 0
    · simp [h1, h2, httpError]
    · simp [h1, h2]

theorem App.multiKeyHandler_ok_iff (K : KeyTable) (authToken : String) (r : Request)
    (hmethod : r.Method = "POST") (htoken : authToken ≠ "")
    (hauth : r.Header.Get "Authorization" = authToken) :
    (App.multiKeyHandler K authToken r).status = 200 ↔
      r.Query.Get "keyCodes" ≠ "" ∧
        ∀ seg ∈ strings.Split (r.Query.Get "keyCodes") ',',
          App.getKeyCodeByKeyName K seg ≠ 0 := by
  rw [App.multiKeyHandler_authorized K authToken r hmethod htoken hauth]
  by_cases h1 : r.Query.Get "keyCodes" = ""
  · simp [h1, httpError]
  · cases hm : App.mapKeyNames K (strings.Split (r.Query.Get "keyCodes") ',') [] with
    | none =>
      obtain ⟨n, hn, h0⟩ := (App.mapKeyNames_eq_none_iff K _ []).1 hm
      simp only [h1, if_false, httpError, ne_eq, not_false_eq_true, true_and]
      constructor
      · intro h; simp at h
      · intro h; exact absurd h0 (h n hn)
    | some codes =>
      simp only [h1, if_false, ne_eq, not_false_eq_true, true_and, true_iff]
      intro seg hseg h0
      have := (App.mapKeyNames_eq_none_iff K _ []).2 ⟨seg, hseg, h0⟩
      rw [hm] at this
      exact absurd this (by simp)

/-- Counterexample to C7 as stated: no assignment of the `VK_*` constants makes
the registry used by the handlers resolve every name of the minimum coverage
list, because `F21` is no case label of `src/app/util.go`. -/
theorem minimum_coverage_fails :
    ¬ ∃ K : KeyTable, ∀ n ∈ minimumCoverage, App.getKeyCodeByKeyName K n ≠ 0 := by
  rintro ⟨K, h⟩
  exact h "F21" (by decide) rfl

set_option maxRecDepth 200000 in
theorem minimumCoverage_split :
    (∀ n ∈ minimumCoverage, n ∉ notInAppRegistry → n ∈ App.caseLabels) ∧
      (∀ n ∈ notInAppRegistry, n ∈ minimumCoverage ∧ n ∉ App.caseLabels) ∧
      (∀ n ∈ minimumCoverage, n ∈ Root.caseLabels) := by
  decide

/-- C7, amended. The registry used by the handlers (`src/app/util.go`) returns
a non-zero code, under positive `VK_*` constants, for the digits, the letters,
`F1`..`F20`, LEFT, RIGHT, UP, DOWN, HOME, END, PAGEUP, PAGEDOWN, DELETE, ENTER,
TAB, SPACE, ESC and `SP1`..`SP12`; for `F21`..`F24`, INSERT, BACKSPACE and the
numeric-keypad names it returns `0` whatever the constants are. -/
theorem minimum_coverage_of_app_registry (K : KeyTable) (hK : K.Valid) :
    (∀ n ∈ minimumCoverage, n ∉ notInAppRegistry → App.getKeyCodeByKeyName K n ≠ 0) ∧
      (∀ n ∈ notInAppRegistry, n ∈ minimumCoverage ∧ App.getKeyCodeByKeyName K n = 0) := by
  constructor
  · intro n hn hnot
    exact (appRegistry_ne_zero_iff K hK n).2 (minimumCoverage_split.1 n hn hnot)
  · intro n hn
    exact ⟨(minimumCoverage_split.2.1 n hn).1,
      appRegistry_of_not_label K n (minimumCoverage_split.2.1 n hn).2⟩

/-- Witness for C7, amended: the sample table. -/
theorem minimum_coverage_of_app_registry_witness :
    (∀ n ∈ minimumCoverage, n ∉ notInAppRegistry →
        App.getKeyCodeByKeyName sampleTable n ≠ 0) ∧
      (∀ n ∈ notInAppRegistry,
        n ∈ minimumCoverage ∧ App.getKeyCodeByKeyName sampleTable n = 0) :=
  minimum_coverage_of_app_registry sampleTable sampleTable_valid

set_option maxRecDepth 200000 in
theorem Root.lowered_label_has_lower :
    ∀ n ∈ Root.caseLabels, String.mk (n.data.map Char.toLower) ≠ n →
      ∃ c ∈ n.data.map Char.toLower, c.isLower = true := by
  decide

/-- C8. Exact-match lookup without normalization: a string containing a
lower-case letter or a whitespace character (more generally any character
other than an upper-case ASCII letter, a digit or an underscore) resolves to
`0` in both registries; in particular, for every case label `n`, the
lower-cased form of `n` when it differs from `n`, `" " ++ n` and `n ++ " "` all
resolve to `0`. -/
theorem getKeyCodeByKeyName_exact_match (K : KeyTable) :
    (∀ keyName : String,
        (∃ c ∈ keyName.data, c.isLower = true ∨ c.isWhitespace = true) →
        App.getKeyCodeByKeyName K keyName = 0 ∧ Root.getKeyCodeByKeyName K keyName = 0) ∧
      (∀ keyName : String,
        (∃ c ∈ keyName.data, (c.isUpper || c.isDigit || c == '_') = false) →
        App.getKeyCodeByKeyName K keyName = 0 ∧ Root.getKeyCodeByKeyName K keyName = 0) ∧
      (∀ n : String, n ∈ App.caseLabels ∨ n ∈ Root.caseLabels →
        (n.toLower ≠ n →
          App.getKeyCodeByKeyName K n.toLower = 0 ∧ Root.getKeyCodeByKeyName K n.toLower = 0) ∧
        (App.getKeyCodeByKeyName K (" " ++ n) = 0 ∧ Root.getKeyCodeByKeyName K (" " ++ n) = 0) ∧
        (App.getKeyCodeByKeyName K (n ++ " ") = 0 ∧
          Root.getKeyCodeByKeyName K (n ++ " ") = 0)) := by
  have key : ∀ keyName : String,
      (∃ c ∈ keyName.data, c.isLower = true ∨ c.isWhitespace = true) →
      App.getKeyCodeByKeyName K keyName = 0 ∧ Root.getKeyCodeByKeyName K keyName = 0 := by
    rintro keyName ⟨c, hc, hbad⟩
    have hnot := not_label_of_foreign_char keyName
      ⟨c, hc, hbad.elim Or.inl (fun h => Or.inr (Or.inl h))⟩
    exact ⟨appRegistry_of_not_label K keyName hnot.1,
      rootRegistry_of_not_label K keyName hnot.2⟩
  refine ⟨key, ?_, ?_⟩
  · rintro keyName ⟨c, hc, hbad⟩
    have hnot := not_label_of_foreign_char keyName ⟨c, hc, Or.inr (Or.inr (Or.inr hbad))⟩
    exact ⟨appRegistry_of_not_label K keyName hnot.1,
      rootRegistry_of_not_label K keyName hnot.2⟩
  intro n hn
  have hroot : n ∈ Root.caseLabels := hn.elim (App.caseLabels_subset_Root n) id
  refine ⟨?_, ?_, ?_⟩
  · intro hne
    have hmap : n.toLower = String.mk (n.data.map Char.toLower) := String.map_eq _ _
    rw [hmap] at hne ⊢
    obtain ⟨c, hc, hlow⟩ := Root.lowered_label_has_lower n hroot hne
    exact key _ ⟨c, hc, Or.inl hlow⟩
  · exact key _ ⟨' ', by simp, Or.inr (by decide)⟩
  · exact key _ ⟨' ', by simp, Or.inr (by decide)⟩

/-- Witness for C8: `a`, `enter`, ` A` and `A ` resolve to `0`. -/
theorem getKeyCodeByKeyName_exact_match_witness :
    (App.getKeyCodeByKeyName sampleTable "a" = 0 ∧ Root.getKeyCodeByKeyName sampleTable "a" = 0) ∧
      (App.getKeyCodeByKeyName sampleTable "enter" = 0 ∧
        Root.getKeyCodeByKeyName sampleTable "enter" = 0) ∧
      (App.getKeyCodeByKeyName sampleTable " A" = 0 ∧
        Root.getKeyCodeByKeyName sampleTable " A" = 0) ∧
      (App.getKeyCodeByKeyName sampleTable "A " = 0 ∧
        Root.getKeyCodeByKeyName sampleTable "A " = 0) :=
  ⟨(getKeyCodeByKeyName_exact_match sampleTable).1 "a" ⟨'a', by decide, Or.inl (by decide)⟩,
    (getKeyCodeByKeyName_exact_match sampleTable).1 "enter" ⟨'e', by decide, Or.inl (by decide)⟩,
    ((getKeyCodeByKeyName_exact_match sampleTable).2.2 "A" (Or.inl (by decide))).2.1,
    ((getKeyCodeByKeyName_exact_match sampleTable).2.2 "A" (Or.inl (by decide))).2.2⟩

/-- C9. Single-key path: on an authorized `POST` to `/press` (non-empty
configured token, matching header) with a non-empty `keyCode` parameter, a
name resolving to `0` is answered with 400 and nothing is dispatched;
otherwise the answer is 200 and `simulateKeyPress` is invoked once, with the
one-element sequence holding the code of the whole parameter.  The parameter
is not split: a value containing `,` is rejected. -/
theorem keyPressHandler_single_key (K : KeyTable) (authToken : String) (r : Request)
    (hmethod : r.Method = "POST") (htoken : authToken ≠ "")
    (hauth : r.Header.Get "Authorization" = authToken)
    (hkey : r.Query.Get "keyCode" ≠ "") :
    (App.getKeyCodeByKeyName K (r.Query.Get "keyCode") = 0 →
        (App.keyPressHandler K authToken r).status = 400 ∧
          (App.keyPressHandler K authToken r).presses = []) ∧
      (App.getKeyCodeByKeyName K (r.Query.Get "keyCode") ≠ 0 →
        (App.keyPressHandler K authToken r).status = 200 ∧
          (App.keyPressHandler K authToken r).presses =
            [⟨[App.getKeyCodeByKeyName K (r.Query.Get "keyCode")],
              r.Query.Get "shift" == "true", r.Query.Get "ctrl" == "true",
              r.Query.Get "alt" == "true", r.Query.Get "super" == "true"⟩]) ∧
      (',' ∈ (r.Query.Get "keyCode").data →
        (App.keyPressHandler K authToken r).status = 400 ∧
          (App.keyPressHandler K authToken r).presses = []) := by
  have hzero : App.getKeyCodeByKeyName K (r.Query.Get "keyCode") = 0 →
      (App.keyPressHandler K authToken r).status = 400 ∧
        (App.keyPressHandler K authToken r).presses = [] := by
    intro h0
    rw [App.keyPressHandler_authorized K authToken r hmethod htoken hauth]
    simp [hkey, h0, httpError]
  refine ⟨hzero, ?_, ?_⟩
  · intro hne
    rw [App.keyPressHandler_authorized K authToken r hmethod htoken hauth]
    simp [hkey, hne]
  · intro hcomma
    exact hzero (appRegistry_of_not_label K _
      (not_label_of_foreign_char _ ⟨',', hcomma, Or.inr (Or.inr (Or.inl rfl))⟩).1)

/-- Witness for C9: `keyCode=A` is dispatched as one code, `keyCode=A,B` is
rejected. -/
theorem keyPressHandler_single_key_witness :
    ((App.keyPressHandler sampleTable "keycontrol" (postWith [("keyCode", "A")])).status = 200 ∧
        (App.keyPressHandler sampleTable "keycontrol" (postWith [("keyCode", "A")])).presses =
          [⟨[App.getKeyCodeByKeyName sampleTable "A"], false, false, false, false⟩]) ∧
      ((App.keyPressHandler sampleTable "keycontrol" (postWith [("keyCode", "A,B")])).status
          = 400 ∧
        (App.keyPressHandler sampleTable "keycontrol" (postWith [("keyCode", "A,B")])).presses
          = []) :=
  ⟨(keyPressHandler_single_key sampleTable "keycontrol" (postWith [("keyCode", "A")])
      (by decide) (by decide) (by decide) (by decide)).2.1 (by decide),
    (keyPressHandler_single_key sampleTable "keycontrol" (postWith [("keyCode", "A,B")])
      (by decide) (by decide) (by decide) (by decide)).2.2 (by decide)⟩

/-- C10. Missing parameter: on an authorized `POST` (non-empty configured token,
matching header), `/press` answers 400 when `keyCode` is absent or empty and
`/press/multi` answers 400 when `keyCodes` is absent or empty, whatever the
other query parameters are, and `simulateKeyPress` is not invoked. -/
theorem missing_parameter_is_bad_request (K : KeyTable) (authToken : String) (r : Request)
    (hmethod : r.Method = "POST") (htoken : authToken ≠ "")
    (hauth : r.Header.Get "Authorization" = authToken) :
    ((r.Query.lookup "keyCode" = none ∨ r.Query.lookup "keyCode" = some "") →
        (App.keyPressHandler K authToken r).status = 400 ∧
          (App.keyPressHandler K authToken r).presses = []) ∧
      ((r.Query.lookup "keyCodes" = none ∨ r.Query.lookup "keyCodes" = some "") →
        (App.multiKeyHandler K authToken r).status = 400 ∧
          (App.multiKeyHandler K authToken r).presses = []) := by
  constructor
  · intro h
    have hget := (Values.Get_eq_empty_iff r.Query "keyCode").2 h
    rw [App.keyPressHandler_authorized K authToken r hmethod htoken hauth]
    simp [hget, httpError]
  · intro h
    have hget := (Values.Get_eq_empty_iff r.Query "keyCodes").2 h
    rw [App.multiKeyHandler_authorized K authToken r hmethod htoken hauth]
    simp [hget, httpError]

/-- Witness for C10: all four modifiers set and an unrelated parameter, with
`keyCode` absent on `/press` and `keyCodes` empty on `/press/multi`. -/
theorem missing_parameter_is_bad_request_witness :
    ((App.keyPressHandler sampleTable "keycontrol"
          (postWith [("shift", "true"), ("ctrl", "true"), ("alt", "true"), ("super", "true"),
            ("keyCodes", "A"), ("x", "y")])).status = 400 ∧
        (App.keyPressHandler sampleTable "keycontrol"
          (postWith [("shift", "true"), ("ctrl", "true"), ("alt", "true"), ("super", "true"),
            ("keyCodes", "A"), ("x", "y")])).presses = []) ∧
      ((App.multiKeyHandler sampleTable "keycontrol"
          (postWith [("shift", "true"), ("keyCode", "A"), ("keyCodes", "")])).status = 400 ∧
        (App.multiKeyHandler sampleTable "keycontrol"
          (postWith [("shift", "true"), ("keyCode", "A"), ("keyCodes", "")])).presses = []) :=
  ⟨(missing_parameter_is_bad_request sampleTable "keycontrol"
      (postWith [("shift", "true"), ("ctrl", "true"), ("alt", "true"), ("super", "true"),
        ("keyCodes", "A"), ("x", "y")]) (by decide) (by decide) (by decide)).1
      (Or.inl (by decide)),
    (missing_parameter_is_bad_request sampleTable "keycontrol"
      (postWith [("shift", "true"), ("keyCode", "A"), ("keyCodes", "")])
      (by decide) (by decide) (by decide)).2 (Or.inr (by decide))⟩

/-! ## Handlers on arbitrary requests -/

theorem App.keyPressHandler_of_not_post (K : KeyTable) (authToken : String) (r : Request)
    (hmethod : r.Method ≠ "POST") :
    App.keyPressHandler K authToken r = httpError (StatusText 405) 405 := by
  unfold App.keyPressHandler
  simp only [hmethod, ne_eq, not_false_eq_true, if_true]

theorem App.multiKeyHandler_of_not_post (K : KeyTable) (authToken : String) (r : Request)
    (hmethod : r.Method ≠ "POST") :
    App.multiKeyHandler K authToken r = httpError (StatusText 405) 405 := by
  unfold App.multiKeyHandler
  simp only [hmethod, ne_eq, not_false_eq_true, if_true]

theorem App.keyPressHandler_of_unauthorized (K : KeyTable) (authToken : String) (r : Request)
    (hmethod : r.Method = "POST")
    (hauth : r.Header.Get "Authorization" = "" ∨ r.Header.Get "Authorization" ≠ authToken) :
    App.keyPressHandler K authToken r = httpError (StatusText 401) 401 := by
  unfold App.keyPressHandler
  simp only [hmethod, ne_eq, not_true_eq_false, if_false]
  rw [if_pos hauth]

theorem App.multiKeyHandler_of_unauthorized (K : KeyTable) (authToken : String) (r : Request)
    (hmethod : r.Method = "POST")
    (hauth : r.Header.Get "Authorization" = "" ∨ r.Header.Get "Authorization" ≠ authToken) :
    App.multiKeyHandler K authToken r = httpError (StatusText 401) 401 := by
  unfold App.multiKeyHandler
  simp only [hmethod, ne_eq, not_true_eq_false, if_false]
  rw [if_pos hauth]

/-- The three ways a request reaches a handler: wrong method, bad token, or an
authorized `POST` (then the configured token is non-empty). -/
theorem request_cases (authToken : String) (r : Request) :
    r.Method ≠ "POST" ∨
      (r.Method = "POST" ∧
        (r.Header.Get "Authorization" = "" ∨ r.Header.Get "Authorization" ≠ authToken)) ∨
      (r.Method = "POST" ∧ authToken ≠ "" ∧ r.Header.Get "Authorization" = authToken) := by
  by_cases hmethod : r.Method = "POST"
  · by_cases hauth : r.Header.Get "Authorization" = "" ∨ r.Header.Get "Authorization" ≠ authToken
    · exact Or.inr (Or.inl ⟨hmethod, hauth⟩)
    · simp only [not_or, ne_eq, not_not] at hauth
      exact Or.inr (Or.inr ⟨hmethod, fun h => hauth.1 (hauth.2.trans h), hauth.2⟩)
  · exact Or.inl hmethod

theorem httpError_status (msg : String) (code : Nat) : (httpError msg code).status = code := rfl

theorem httpError_presses (msg : String) (code : Nat) : (httpError msg code).presses = [] := rfl

/-- The outcome of `keyPressHandler` on any request: an error answer without
dispatch, or 200 with one dispatch of the resolved code. -/
theorem App.keyPressHandler_outcome (K : KeyTable) (authToken : String) (r : Request) :
    (∃ msg code, (code = 400 ∨ code = 401 ∨ code = 405) ∧
        App.keyPressHandler K authToken r = httpError msg code) ∨
      (r.Method = "POST" ∧ authToken ≠ "" ∧ r.Header.Get "Authorization" = authToken ∧
        r.Query.Get "keyCode" ≠ "" ∧ App.getKeyCodeByKeyName K (r.Query.Get "keyCode") ≠ 0 ∧
        (App.keyPressHandler K authToken r).status = 200 ∧
        (App.keyPressHandler K authToken r).presses =
          [⟨[App.getKeyCodeByKeyName K (r.Query.Get "keyCode")],
            r.Query.Get "shift" == "true", r.Query.Get "ctrl" == "true",
            r.Query.Get "alt" == "true", r.Query.Get "super" == "true"⟩]) := by
  rcases request_cases authToken r with hm | ⟨hm, ha⟩ | ⟨hm, ht, ha⟩
  · exact Or.inl ⟨_, 405, by simp, App.keyPressHandler_of_not_post K authToken r hm⟩
  · exact Or.inl ⟨_, 401, by simp, App.keyPressHandler_of_unauthorized K authToken r hm ha⟩
  · rw [App.keyPressHandler_authorized K authToken r hm ht ha]
    by_cases h1 : r.Query.Get "keyCode" = ""
    · exact Or.inl ⟨"keyCode parameter is required", 400, by simp, by simp only [h1, if_true]⟩
    · by_cases h2 : App.getKeyCodeByKeyName K (r.Query.Get "keyCode") = 0
      · exact Or.inl ⟨"Invalid keyCode provided", 400, by simp,
          by simp only [h1, h2, if_true, if_false]⟩
      · refine Or.inr ⟨hm, ht, ha, h1, h2, ?_, ?_⟩ <;> simp only [h1, h2, if_false]

/-- The outcome of `multiKeyHandler` on any request: an error answer without
dispatch, or 200 with one dispatch of the codes of all segments. -/
theorem App.multiKeyHandler_outcome (K : KeyTable) (authToken : String) (r : Request) :
    (∃ msg code, (code = 400 ∨ code = 401 ∨ code = 405) ∧
        App.multiKeyHandler K authToken r = httpError msg code) ∨
      (r.Method = "POST" ∧ authToken ≠ "" ∧ r.Header.Get "Authorization" = authToken ∧
        r.Query.Get "keyCodes" ≠ "" ∧
        (∀ seg ∈ strings.Split (r.Query.Get "keyCodes") ',',
          App.getKeyCodeByKeyName K seg ≠ 0) ∧
        (App.multiKeyHandler K authToken r).status = 200 ∧
        (App.multiKeyHandler K authToken r).presses =
          [⟨(strings.Split (r.Query.Get "keyCodes") ',').map (App.getKeyCodeByKeyName K),
            r.Query.Get "shift" == "true", r.Query.Get "ctrl" == "true",
            r.Query.Get "alt" == "true", r.Query.Get "super" == "true"⟩]) := by
  rcases request_cases authToken r with hm | ⟨hm, ha⟩ | ⟨hm, ht, ha⟩
  · exact Or.inl ⟨_, 405, by simp, App.multiKeyHandler_of_not_post K authToken r hm⟩
  · exact Or.inl ⟨_, 401, by simp, App.multiKeyHandler_of_unauthorized K authToken r hm ha⟩
  · rw [App.multiKeyHandler_authorized K authToken r hm ht ha]
    by_cases h1 : r.Query.Get "keyCodes" = ""
    · exact Or.inl ⟨"keyCodes parameter is required", 400, by simp, by simp only [h1, if_true]⟩
    · cases hmap : App.mapKeyNames K (strings.Split (r.Query.Get "keyCodes") ',') [] with
      | none =>
        exact Or.inl ⟨"Invalid keyCodes provided", 400, by simp, by simp only [h1, if_false]⟩
      | some codes =>
        have hall : ∀ seg ∈ strings.Split (r.Query.Get "keyCodes") ',',
            App.getKeyCodeByKeyName K seg ≠ 0 := by
          intro seg hseg h0
          have hnone := (App.mapKeyNames_eq_none_iff K _ []).2 ⟨seg, hseg, h0⟩
          rw [hmap] at hnone
          exact absurd hnone (by simp)
        have hcodes := App.mapKeyNames_eq_some K _ [] codes hmap
        simp only [List.nil_append] at hcodes
        refine Or.inr ⟨hm, ht, ha, h1, hall, ?_, ?_⟩ <;> simp only [h1, if_false, hcodes]

/-! ## Modifiers, dispatch invariant, method gate, health check -/

theorem App.simulateKeyPress_modifiers (GOOS : String) (launchErr : Bool) (vkCode : List Int)
    (hasShift hasCtrl hasAlt hasSuper : Bool) :
    (App.simulateKeyPress GOOS false launchErr vkCode hasShift hasCtrl hasAlt hasSuper).filter
        Effect.isModifier =
      [Effect.HasSHIFT hasShift, Effect.HasCTRLR hasCtrl, Effect.HasALT hasAlt,
        Effect.HasSuper hasSuper] := by
  by_cases hos : GOOS = "linux" <;> cases launchErr <;>
    simp [App.simulateKeyPress, hos, Effect.isModifier]

/-- C11. Modifier independence and parsing: on every successful request to
`/press` or `/press/multi`, `simulateKeyPress` is invoked once and, for each of
shift, ctrl, alt and super, the flag it receives is true if and only if the
query parameter of that name is exactly `"true"`, whatever the other three
are; once the key binding is created, the four flags are handed to its setters
`HasSHIFT`, `HasCTRLR`, `HasALT` and `HasSuper` and to no other. -/
theorem modifier_flags_exact (K : KeyTable) (authToken : String) (r : Request) :
    ((App.keyPressHandler K authToken r).status = 200 →
        ∃ p, (App.keyPressHandler K authToken r).presses = [p] ∧
          (p.hasShift = true ↔ r.Query.Get "shift" = "true") ∧
          (p.hasCtrl = true ↔ r.Query.Get "ctrl" = "true") ∧
          (p.hasAlt = true ↔ r.Query.Get "alt" = "true") ∧
          (p.hasSuper = true ↔ r.Query.Get "super" = "true") ∧
          ∀ (GOOS : String) (launchErr : Bool),
            (p.effects GOOS false launchErr).filter Effect.isModifier =
              [Effect.HasSHIFT p.hasShift, Effect.HasCTRLR p.hasCtrl, Effect.HasALT p.hasAlt,
                Effect.HasSuper p.hasSuper]) ∧
      ((App.multiKeyHandler K authToken r).status = 200 →
        ∃ p, (App.multiKeyHandler K authToken r).presses = [p] ∧
          (p.hasShift = true ↔ r.Query.Get "shift" = "true") ∧
          (p.hasCtrl = true ↔ r.Query.Get "ctrl" = "true") ∧
          (p.hasAlt = true ↔ r.Query.Get "alt" = "true") ∧
          (p.hasSuper = true ↔ r.Query.Get "super" = "true") ∧
          ∀ (GOOS : String) (launchErr : Bool),
            (p.effects GOOS false launchErr).filter Effect.isModifier =
              [Effect.HasSHIFT p.hasShift, Effect.HasCTRLR p.hasCtrl, Effect.HasALT p.hasAlt,
                Effect.HasSuper p.hasSuper]) := by
  constructor
  · intro hok
    rcases App.keyPressHandler_outcome K authToken r with
      ⟨msg, code, hcode, heq⟩ | ⟨-, -, -, -, -, -, hp⟩
    · rw [heq, httpError_status] at hok
      omega
    · exact ⟨_, hp, beq_iff_eq, beq_iff_eq, beq_iff_eq, beq_iff_eq,
        fun GOOS launchErr => App.simulateKeyPress_modifiers GOOS launchErr _ _ _ _ _⟩
  · intro hok
    rcases App.multiKeyHandler_outcome K authToken r with
      ⟨msg, code, hcode, heq⟩ | ⟨-, -, -, -, -, -, hp⟩
    · rw [heq, httpError_status] at hok
      omega
    · exact ⟨_, hp, beq_iff_eq, beq_iff_eq, beq_iff_eq, beq_iff_eq,
        fun GOOS launchErr => App.simulateKeyPress_modifiers GOOS launchErr _ _ _ _ _⟩

/-- Witness for C11: each of the 16 combinations is dispatched as requested on
both routes, and `TRUE`, `1`, `yes`, the empty value and an absent parameter
all give false. -/
theorem modifier_flags_exact_witness :
    (∀ s c a u : Bool,
        (App.keyPressHandler sampleTable "keycontrol"
            (postWith [("keyCode", "A"), ("super", boolParam u), ("alt", boolParam a),
              ("ctrl", boolParam c), ("shift", boolParam s)])).presses =
            [⟨[App.getKeyCodeByKeyName sampleTable "A"], s, c, a, u⟩] ∧
          (App.multiKeyHandler sampleTable "keycontrol"
            (postWith [("keyCodes", "A,B"), ("shift", boolParam s), ("ctrl", boolParam c),
              ("alt", boolParam a), ("super", boolParam u)])).presses =
            [⟨[App.getKeyCodeByKeyName sampleTable "A", App.getKeyCodeByKeyName sampleTable "B"],
              s, c, a, u⟩]) ∧
      (App.keyPressHandler sampleTable "keycontrol"
          (postWith [("keyCode", "A"), ("shift", "TRUE"), ("ctrl", "1"), ("alt", "yes"),
            ("super", "")])).presses =
        [⟨[App.getKeyCodeByKeyName sampleTable "A"], false, false, false, false⟩] ∧
      ∃ p, (App.keyPressHandler sampleTable "keycontrol"
          (postWith [("keyCode", "A"), ("ctrl", "true")])).presses = [p] ∧
        (p.hasShift = true ↔
          (postWith [("keyCode", "A"), ("ctrl", "true")]).Query.Get "shift" = "true") ∧
        (p.hasCtrl = true ↔
          (postWith [("keyCode", "A"), ("ctrl", "true")]).Query.Get "ctrl" = "true") :=
  ⟨by decide, by decide,
    (((modifier_flags_exact sampleTable "keycontrol"
      (postWith [("keyCode", "A"), ("ctrl", "true")])).1 (by decide)).imp
      fun _ h => ⟨h.1, h.2.1, h.2.2.1⟩)⟩

/-- C12. Dispatch invariant: for every request to `/press` or `/press/multi`
(any method, token and query), every invocation of `simulateKeyPress` receives
a code sequence that is non-empty and contains no `0`. -/
theorem dispatch_invariant (K : KeyTable) (authToken : String) (r : Request) :
    (∀ p ∈ (App.keyPressHandler K authToken r).presses,
        p.keyCodes ≠ [] ∧ (0 : Int) ∉ p.keyCodes) ∧
      (∀ p ∈ (App.multiKeyHandler K authToken r).presses,
        p.keyCodes ≠ [] ∧ (0 : Int) ∉ p.keyCodes) := by
  constructor
  · intro p hp
    rcases App.keyPressHandler_outcome K authToken r with
      ⟨msg, code, -, heq⟩ | ⟨-, -, -, -, hne, -, hpress⟩
    · rw [heq, httpError_presses] at hp
      exact absurd hp (List.not_mem_nil _)
    · rw [hpress, List.mem_singleton] at hp
      subst hp
      exact ⟨by simp, by simpa using Ne.symm hne⟩
  · intro p hp
    rcases App.multiKeyHandler_outcome K authToken r with
      ⟨msg, code, -, heq⟩ | ⟨-, -, -, -, hall, -, hpress⟩
    · rw [heq, httpError_presses] at hp
      exact absurd hp (List.not_mem_nil _)
    · rw [hpress, List.mem_singleton] at hp
      subst hp
      refine ⟨?_, ?_⟩
      · intro hnil
        have hlen := congrArg List.length hnil
        simp only [List.length_map, List.length_nil, strings.Split] at hlen
        exact List.splitOnP_ne_nil _ _ (List.length_eq_zero.1 hlen)
      · intro hmem
        obtain ⟨seg, hseg, h0⟩ := List.mem_map.1 hmem
        exact hall seg hseg h0

/-- C13. Method gate: a request to `/press` or `/press/multi` whose method is
not exactly `POST` is answered with 405 (`Method Not Allowed`) whatever its
`Authorization` header and query are, and `simulateKeyPress` is not invoked. -/
theorem method_gate (K : KeyTable) (authToken : String) (r : Request)
    (hmethod : r.Method ≠ "POST") :
    ((App.keyPressHandler K authToken r).status = 405 ∧
        (App.keyPressHandler K authToken r).presses = [] ∧
        (App.keyPressHandler K authToken r).body = "Method Not Allowed\n") ∧
      ((App.multiKeyHandler K authToken r).status = 405 ∧
        (App.multiKeyHandler K authToken r).presses = [] ∧
        (App.multiKeyHandler K authToken r).body = "Method Not Allowed\n") := by
  rw [App.keyPressHandler_of_not_post K authToken r hmethod,
    App.multiKeyHandler_of_not_post K authToken r hmethod]
  exact ⟨⟨rfl, rfl, by decide⟩, ⟨rfl, rfl, by decide⟩⟩

/-- Witness for C13: a `GET` without token and with a valid key gets 405, not
401, on both routes. -/
theorem method_gate_witness :
    ((App.keyPressHandler sampleTable "keycontrol"
          ⟨"GET", [], [("keyCode", "A"), ("keyCodes", "A")]⟩).status = 405 ∧
        (App.keyPressHandler sampleTable "keycontrol"
          ⟨"GET", [], [("keyCode", "A"), ("keyCodes", "A")]⟩).presses = [] ∧
        (App.keyPressHandler sampleTable "keycontrol"
          ⟨"GET", [], [("keyCode", "A"), ("keyCodes", "A")]⟩).body = "Method Not Allowed\n") ∧
      ((App.multiKeyHandler sampleTable "keycontrol"
          ⟨"GET", [], [("keyCode", "A"), ("keyCodes", "A")]⟩).status = 405 ∧
        (App.multiKeyHandler sampleTable "keycontrol"
          ⟨"GET", [], [("keyCode", "A"), ("keyCodes", "A")]⟩).presses = [] ∧
        (App.multiKeyHandler sampleTable "keycontrol"
          ⟨"GET", [], [("keyCode", "A"), ("keyCodes", "A")]⟩).body = "Method Not Allowed\n") :=
  method_gate sampleTable "keycontrol" ⟨"GET", [], [("keyCode", "A"), ("keyCodes", "A")]⟩
    (by decide)

/-- C14. Health check: `healthHandler` answers 200 with an empty body when the
method is `GET` and 405 for every other method, never invokes
`simulateKeyPress`, and its answer depends on the method alone (not on the
`Authorization` header or the query), so a repeated request gets the same
answer. -/
theorem healthHandler_answers (r : Request) :
    (r.Method = "GET" →
        (App.healthHandler r).status = 200 ∧ (App.healthHandler r).body = "") ∧
      (r.Method ≠ "GET" → (App.healthHandler r).status = 405) ∧
      (App.healthHandler r).presses = [] ∧
      (∀ r2 : Request, r2.Method = r.Method → App.healthHandler r2 = App.healthHandler r) := by
  refine ⟨?_, ?_, ?_, ?_⟩
  · intro h
    simp [App.healthHandler, h]
  · intro h
    simp [App.healthHandler, h, httpError]
  · by_cases h : r.Method = "GET" <;> simp [App.healthHandler, h, httpError]
  · intro r2 h
    simp [App.healthHandler, h]

/-- Witness for C14: `GET` gives 200 with an empty body; `POST`, `PUT` and
`DELETE` give 405. -/
theorem healthHandler_answers_witness :
    ((App.healthHandler ⟨"GET", [("Authorization", "wrong")], [("keyCode", "A")]⟩).status = 200 ∧
        (App.healthHandler ⟨"GET", [("Authorization", "wrong")], [("keyCode", "A")]⟩).body
          = "") ∧
      (App.healthHandler ⟨"POST", [], []⟩).status = 405 ∧
      (App.healthHandler ⟨"PUT", [], []⟩).status = 405 ∧
      (App.healthHandler ⟨"DELETE", [], []⟩).status = 405 :=
  ⟨(healthHandler_answers ⟨"GET", [("Authorization", "wrong")], [("keyCode", "A")]⟩).1
      (by decide),
    (healthHandler_answers ⟨"POST", [], []⟩).2.1 (by decide),
    (healthHandler_answers ⟨"PUT", [], []⟩).2.1 (by decide),
    (healthHandler_answers ⟨"DELETE", [], []⟩).2.1 (by decide)⟩

/-! ## Segments of `keyCodes`, diagnostics and the success body -/

theorem splitOnP_tail_of_append {α : Type} (p : α → Bool) (xs ys : List α) (e : List α)
    (h : e ∈ (ys.splitOnP p).tail) : e ∈ ((xs ++ ys).splitOnP p).tail := by
  induction xs with
  | nil => simpa using h
  | cons x xs ih =>
    rw [List.cons_append, List.splitOnP_cons]
    by_cases hp : p x = true
    · rw [if_pos hp, List.tail_cons]
      exact List.mem_of_mem_tail ih
    · rw [if_neg hp]
      cases hS : (xs ++ ys).splitOnP p with
      | nil => exact absurd hS (List.splitOnP_ne_nil _ _)
      | cons s rest =>
        rw [hS] at ih
        simpa [List.modifyHead] using ih

theorem strings.Split_mem_empty_of_tail (s : String) (sep : Char)
    (h : [] ∈ (s.data.splitOn sep).tail) : "" ∈ strings.Split s sep := by
  unfold strings.Split
  exact List.mem_map.2 ⟨[], List.mem_of_mem_tail h, rfl⟩

/-- A value that begins with the separator, ends with it or holds it twice in
a row has an empty segment. -/
theorem strings.Split_mem_empty (s : String) (sep : Char)
    (h : (∃ rest, s.data = sep :: rest) ∨ (∃ front, s.data = front ++ [sep]) ∨
      (∃ front rest, s.data = front ++ sep :: sep :: rest)) :
    "" ∈ strings.Split s sep := by
  rcases h with ⟨rest, h⟩ | ⟨front, h⟩ | ⟨front, rest, h⟩
  · unfold strings.Split
    refine List.mem_map.2 ⟨[], ?_, rfl⟩
    rw [h, List.splitOn, List.splitOnP_cons]
    simp
  · apply strings.Split_mem_empty_of_tail
    rw [h, List.splitOn]
    exact splitOnP_tail_of_append (· == sep) front [sep] [] (by simp)
  · apply strings.Split_mem_empty_of_tail
    rw [h, List.splitOn]
    exact splitOnP_tail_of_append (· == sep) front (sep :: sep :: rest) [] (by simp)

theorem App.multiKeyHandler_rejected (K : KeyTable) (authToken : String) (r : Request)
    (hmethod : r.Method = "POST") (htoken : authToken ≠ "")
    (hauth : r.Header.Get "Authorization" = authToken)
    (hkeys : r.Query.Get "keyCodes" ≠ "")
    (hbad : ∃ seg ∈ strings.Split (r.Query.Get "keyCodes") ',',
      App.getKeyCodeByKeyName K seg = 0) :
    App.multiKeyHandler K authToken r = httpError "Invalid keyCodes provided" 400 := by
  rw [App.multiKeyHandler_authorized K authToken r hmethod htoken hauth,
    (App.mapKeyNames_eq_none_iff K _ []).2 hbad]
  simp only [hkeys, if_false]

theorem App.multiKeyHandler_bad_segment (K : KeyTable) (authToken : String) (r : Request)
    (hmethod : r.Method = "POST") (htoken : authToken ≠ "")
    (hauth : r.Header.Get "Authorization" = authToken)
    (hbad : ∃ seg ∈ strings.Split (r.Query.Get "keyCodes") ',',
      App.getKeyCodeByKeyName K seg = 0) :
    (App.multiKeyHandler K authToken r).status = 400 ∧
      (App.multiKeyHandler K authToken r).presses = [] := by
  by_cases hkeys : r.Query.Get "keyCodes" = ""
  · rw [App.multiKeyHandler_authorized K authToken r hmethod htoken hauth]
    simp only [hkeys, if_true]
    exact ⟨rfl, rfl⟩
  · rw [App.multiKeyHandler_rejected K authToken r hmethod htoken hauth hkeys hbad]
    exact ⟨rfl, rfl⟩

/-- C15. Empty and untrimmed segments are unresolvable: an authorized `POST` to
`/press/multi` whose `keyCodes` value begins with `,`, ends with `,`, contains
`,,`, or has a segment with a leading or trailing whitespace character is
answered with 400 and nothing is dispatched. -/
theorem malformed_segments_rejected (K : KeyTable) (authToken : String) (r : Request)
    (hmethod : r.Method = "POST") (htoken : authToken ≠ "")
    (hauth : r.Header.Get "Authorization" = authToken)
    (hbad : (∃ rest, (r.Query.Get "keyCodes").data = ',' :: rest) ∨
      (∃ front, (r.Query.Get "keyCodes").data = front ++ [',']) ∨
      (∃ front rest, (r.Query.Get "keyCodes").data = front ++ ',' :: ',' :: rest) ∨
      (∃ seg ∈ strings.Split (r.Query.Get "keyCodes") ',', ∃ c rest, c.isWhitespace = true ∧
        (seg.data = c :: rest ∨ seg.data = rest ++ [c]))) :
    (App.multiKeyHandler K authToken r).status = 400 ∧
      (App.multiKeyHandler K authToken r).presses = [] := by
  apply App.multiKeyHandler_bad_segment K authToken r hmethod htoken hauth
  have hempty : "" ∈ strings.Split (r.Query.Get "keyCodes") ',' →
      ∃ seg ∈ strings.Split (r.Query.Get "keyCodes") ',', App.getKeyCodeByKeyName K seg = 0 :=
    fun h => ⟨"", h, appRegistry_of_not_label K "" (by decide)⟩
  rcases hbad with h | h | h | ⟨seg, hseg, c, rest, hc, hdata⟩
  · exact hempty (strings.Split_mem_empty _ _ (Or.inl h))
  · exact hempty (strings.Split_mem_empty _ _ (Or.inr (Or.inl h)))
  · exact hempty (strings.Split_mem_empty _ _ (Or.inr (Or.inr h)))
  · refine ⟨seg, hseg, appRegistry_of_not_label K seg
      (not_label_of_foreign_char seg ⟨c, ?_, Or.inr (Or.inl hc)⟩).1⟩
    rcases hdata with hd | hd <;> rw [hd] <;> simp

/-- Witness for C15: `A,,B`, `,A`, `A,` and `A, B`. -/
theorem malformed_segments_rejected_witness :
    ((App.multiKeyHandler sampleTable "keycontrol" (postWith [("keyCodes", "A,,B")])).status = 400 ∧
        (App.multiKeyHandler sampleTable "keycontrol"
          (postWith [("keyCodes", "A,,B")])).presses = []) ∧
      ((App.multiKeyHandler sampleTable "keycontrol" (postWith [("keyCodes", ",A")])).status = 400 ∧
        (App.multiKeyHandler sampleTable "keycontrol"
          (postWith [("keyCodes", ",A")])).presses = []) ∧
      ((App.multiKeyHandler sampleTable "keycontrol" (postWith [("keyCodes", "A,")])).status = 400 ∧
        (App.multiKeyHandler sampleTable "keycontrol"
          (postWith [("keyCodes", "A,")])).presses = []) ∧
      ((App.multiKeyHandler sampleTable "keycontrol" (postWith [("keyCodes", "A, B")])).status
          = 400 ∧
        (App.multiKeyHandler sampleTable "keycontrol"
          (postWith [("keyCodes", "A, B")])).presses = []) :=
  ⟨malformed_segments_rejected sampleTable "keycontrol" (postWith [("keyCodes", "A,,B")])
      (by decide) (by decide) (by decide) (Or.inr (Or.inr (Or.inl ⟨['A'], ['B'], by decide⟩))),
    malformed_segments_rejected sampleTable "keycontrol" (postWith [("keyCodes", ",A")])
      (by decide) (by decide) (by decide) (Or.inl ⟨['A'], by decide⟩),
    malformed_segments_rejected sampleTable "keycontrol" (postWith [("keyCodes", "A,")])
      (by decide) (by decide) (by decide) (Or.inr (Or.inl ⟨['A'], by decide⟩)),
    malformed_segments_rejected sampleTable "keycontrol" (postWith [("keyCodes", "A, B")])
      (by decide) (by decide) (by decide)
      (Or.inr (Or.inr (Or.inr ⟨" B", by decide, ' ', ['B'], by decide, Or.inl (by decide)⟩)))⟩

/-- Counterexample to C16 as stated: the requests `keyCodes=BOGUS,A` and
`keyCodes=A,WRONG` are rejected for different leftmost offending segments
(`BOGUS` and `WRONG`) and get the same response, byte for byte. -/
theorem invalid_key_diagnostic_fails :
    firstOffending sampleTable (strings.Split "BOGUS,A" ',') = some "BOGUS" ∧
      firstOffending sampleTable (strings.Split "A,WRONG" ',') = some "WRONG" ∧
      (App.multiKeyHandler sampleTable "keycontrol" (postWith [("keyCodes", "BOGUS,A")])).status
        = 400 ∧
      App.multiKeyHandler sampleTable "keycontrol" (postWith [("keyCodes", "BOGUS,A")]) =
        App.multiKeyHandler sampleTable "keycontrol" (postWith [("keyCodes", "A,WRONG")]) := by
  decide

/-- C16, amended. InvalidKey on `/press/multi`: an authorized `POST` with a
non-empty `keyCodes` of which some segment resolves to the invalid code is
answered with 400 and the fixed body `Invalid keyCodes provided`; nothing is
logged or dispatched, and the answer is the same whichever segment is at
fault. -/
theorem invalid_key_fixed_diagnostic (K : KeyTable) (authToken : String) (r : Request)
    (hmethod : r.Method = "POST") (htoken : authToken ≠ "")
    (hauth : r.Header.Get "Authorization" = authToken)
    (hkeys : r.Query.Get "keyCodes" ≠ "")
    (hbad : firstOffending K (strings.Split (r.Query.Get "keyCodes") ',') ≠ none) :
    App.multiKeyHandler K authToken r =
      { status := 400, body := "Invalid keyCodes provided\n", logged := [], presses := [] } := by
  have hex : ∃ seg ∈ strings.Split (r.Query.Get "keyCodes") ',',
      App.getKeyCodeByKeyName K seg = 0 := by
    cases hf : firstOffending K (strings.Split (r.Query.Get "keyCodes") ',') with
    | none => exact absurd hf hbad
    | some seg =>
      unfold firstOffending at hf
      exact ⟨seg, List.mem_of_find?_eq_some hf, by simpa using List.find?_some hf⟩
  rw [App.multiKeyHandler_rejected K authToken r hmethod htoken hauth hkeys hex]
  decide

/-- Witness for C16, amended: `keyCodes=A,BOGUS,B`. -/
theorem invalid_key_fixed_diagnostic_witness :
    App.multiKeyHandler sampleTable "keycontrol" (postWith [("keyCodes", "A,BOGUS,B")]) =
      { status := 400, body := "Invalid keyCodes provided\n", logged := [], presses := [] } :=
  invalid_key_fixed_diagnostic sampleTable "keycontrol" (postWith [("keyCodes", "A,BOGUS,B")])
    (by decide) (by decide) (by decide) (by decide) (by decide)

theorem App.appendModifiers_eq (logMessage : String) (shift ctrl alt super : Bool) :
    App.appendModifiers logMessage shift ctrl alt super =
      logMessage ++ (if ctrl then " | Ctrl" else "") ++ (if alt then " | Alt" else "") ++
        (if shift then " | Shift" else "") ++ (if super then " | Super" else "") := by
  cases shift <;> cases ctrl <;> cases alt <;> cases super <;>
    simp [App.appendModifiers, String.append_empty]

/-- C17. Success body: on every successful request the response body is the
logged line: `Key press simulated for keyCode: ` and the `keyCode` parameter
(`/press`), or `Key press simulated for keyCodes: ` and the segments of
`keyCodes` joined by ` | ` (`/press/multi`), followed by ` | Ctrl`, ` | Alt`,
` | Shift`, ` | Super` for exactly the modifiers whose parameter is `"true"`,
in this order; it depends on the values of the parameters only, not on their
order in the query. -/
theorem success_body (K : KeyTable) (authToken : String) (r : Request) :
    ((App.keyPressHandler K authToken r).status = 200 →
        (App.keyPressHandler K authToken r).body =
            "Key press simulated for keyCode: " ++ r.Query.Get "keyCode" ++
              (if r.Query.Get "ctrl" = "true" then " | Ctrl" else "") ++
              (if r.Query.Get "alt" = "true" then " | Alt" else "") ++
              (if r.Query.Get "shift" = "true" then " | Shift" else "") ++
              (if r.Query.Get "super" = "true" then " | Super" else "") ∧
          (App.keyPressHandler K authToken r).logged = [(App.keyPressHandler K authToken r).body]) ∧
      ((App.multiKeyHandler K authToken r).status = 200 →
        (App.multiKeyHandler K authToken r).body =
            "Key press simulated for keyCodes: " ++
              strings.Join (strings.Split (r.Query.Get "keyCodes") ',') " | " ++
              (if r.Query.Get "ctrl" = "true" then " | Ctrl" else "") ++
              (if r.Query.Get "alt" = "true" then " | Alt" else "") ++
              (if r.Query.Get "shift" = "true" then " | Shift" else "") ++
              (if r.Query.Get "super" = "true" then " | Super" else "") ∧
          (App.multiKeyHandler K authToken r).logged =
            [(App.multiKeyHandler K authToken r).body]) := by
  constructor
  · intro hok
    rcases App.keyPressHandler_outcome K authToken r with
      ⟨msg, code, hcode, heq⟩ | ⟨hm, ht, ha, h1, h2, -, -⟩
    · rw [heq, httpError_status] at hok
      omega
    · rw [App.keyPressHandler_authorized K authToken r hm ht ha]
      simp only [h1, h2, if_false, App.appendModifiers_eq, beq_iff_eq, and_self]
  · intro hok
    rcases App.multiKeyHandler_outcome K authToken r with
      ⟨msg, code, hcode, heq⟩ | ⟨hm, ht, ha, h1, h2, -, -⟩
    · rw [heq, httpError_status] at hok
      omega
    · rw [App.multiKeyHandler_authorized K authToken r hm ht ha,
        App.mapKeyNames_of_all_ne_zero K _ [] h2]
      simp only [h1, if_false, App.appendModifiers_eq, beq_iff_eq, and_self]

/-- Witness for C17: the suffixes come in the order Ctrl, Alt, Shift, Super
whatever the order of the query parameters. -/
theorem success_body_witness :
    (App.keyPressHandler sampleTable "keycontrol"
        (postWith [("super", "true"), ("shift", "true"), ("keyCode", "A"), ("alt", "true"),
          ("ctrl", "true")])).body =
        "Key press simulated for keyCode: A | Ctrl | Alt | Shift | Super" ∧
      (App.multiKeyHandler sampleTable "keycontrol"
        (postWith [("shift", "true"), ("keyCodes", "A,B,C"), ("ctrl", "true")])).body =
        "Key press simulated for keyCodes: A | B | C | Ctrl | Shift" :=
  ⟨((success_body sampleTable "keycontrol"
      (postWith [("super", "true"), ("shift", "true"), ("keyCode", "A"), ("alt", "true"),
        ("ctrl", "true")])).1 (by decide)).1.trans (by decide),
    ((success_body sampleTable "keycontrol"
      (postWith [("shift", "true"), ("keyCodes", "A,B,C"), ("ctrl", "true")])).2
      (by decide)).1.trans (by decide)⟩

/-! ## The delay schedule of the dispatcher -/

/-- Counterexample to C18 as stated: on Linux two successive calls of
`simulateKeyPress` (`src/app/util.go`) each wait 2 seconds, so the wait also
precedes the second dispatch; the `simulateKeyPress` of `src/util.go` never
waits 2 seconds; and a call whose key binding cannot be created performs no
launch. -/
theorem warm_up_once_fails :
    (processTrace "linux"
        [⟨[30], false, false, false, false⟩, ⟨[48], false, true, false, false⟩]).count
        (Effect.Sleep 2000) = 2 ∧
      Effect.Sleep 2000 ∉ Root.simulateKeyPress false false [30] false false false false ∧
      Effect.Launching ∉ App.simulateKeyPress "linux" true false [30] false false false false := by
  decide

theorem App.simulateKeyPress_count_warm_up (GOOS : String) (vkCode : List Int)
    (hasShift hasCtrl hasAlt hasSuper : Bool) :
    (App.simulateKeyPress GOOS false false vkCode hasShift hasCtrl hasAlt hasSuper).count
        (Effect.Sleep 2000) = if GOOS = "linux" then 1 else 0 := by
  by_cases hos : GOOS = "linux" <;> simp [App.simulateKeyPress, hos, List.count_cons]

theorem App.simulateKeyPress_count_launching (GOOS : String) (vkCode : List Int)
    (hasShift hasCtrl hasAlt hasSuper : Bool) :
    (App.simulateKeyPress GOOS false false vkCode hasShift hasCtrl hasAlt hasSuper).count
        Effect.Launching = 1 := by
  by_cases hos : GOOS = "linux" <;> simp [App.simulateKeyPress, hos, List.count_cons]

theorem processTrace_counts (GOOS : String) (calls : List KeyPress) :
    (processTrace GOOS calls).count (Effect.Sleep 2000) =
        (if GOOS = "linux" then calls.length else 0) ∧
      (processTrace GOOS calls).count Effect.Launching = calls.length := by
  induction calls with
  | nil => simp [processTrace]
  | cons p rest ih =>
    simp only [processTrace, List.count_append, KeyPress.effects,
      App.simulateKeyPress_count_warm_up, App.simulateKeyPress_count_launching, ih.1, ih.2,
      List.length_cons]
    by_cases hos : GOOS = "linux" <;> simp [hos] <;> omega

/-- C18, amended. Delay schedule of `simulateKeyPress`: a call whose key
binding is created loads the keys and the four modifier flags and then
launches exactly once; in `src/app/util.go`, on Linux, every call (not only
the first of the process) waits 2 seconds after creating the binding and
before loading the keys, and on any other platform no call does; in
`src/util.go` no call does; in both files a call whose launch succeeds ends
with a 100-millisecond wait right after the launch. -/
theorem dispatcher_schedule (GOOS : String) (launchErr : Bool) (vkCode : List Int)
    (hasShift hasCtrl hasAlt hasSuper : Bool) :
    (∀ T, T = App.simulateKeyPress GOOS false launchErr vkCode hasShift hasCtrl hasAlt hasSuper ∨
          T = Root.simulateKeyPress false launchErr vkCode hasShift hasCtrl hasAlt hasSuper →
        T.count Effect.Launching = 1 ∧
        (∃ pre post, T = pre ++ [Effect.SetKeys vkCode, Effect.HasSHIFT hasShift,
          Effect.HasCTRLR hasCtrl, Effect.HasALT hasAlt, Effect.HasSuper hasSuper,
          Effect.Launching] ++ post ∧ Effect.Launching ∉ pre ∧
          (launchErr = false → post = [Effect.Sleep 100]))) ∧
      (GOOS = "linux" →
        ∃ post, App.simulateKeyPress GOOS false launchErr vkCode hasShift hasCtrl hasAlt hasSuper =
          [Effect.NewKeyBonding, Effect.Sleep 2000, Effect.SetKeys vkCode] ++ post) ∧
      (GOOS ≠ "linux" → Effect.Sleep 2000 ∉
        App.simulateKeyPress GOOS false launchErr vkCode hasShift hasCtrl hasAlt hasSuper) ∧
      Effect.Sleep 2000 ∉
        Root.simulateKeyPress false launchErr vkCode hasShift hasCtrl hasAlt hasSuper ∧
      (∀ calls : List KeyPress,
        (processTrace GOOS calls).count (Effect.Sleep 2000) =
            (if GOOS = "linux" then calls.length else 0) ∧
          (processTrace GOOS calls).count Effect.Launching = calls.length) := by
  refine ⟨?_, ?_, ?_, ?_, processTrace_counts GOOS⟩
  · rintro T (rfl | rfl)
    · refine ⟨?_, [Effect.NewKeyBonding] ++ (if GOOS = "linux" then [Effect.Sleep 2000] else []),
        if launchErr then [Effect.Fatalf] else [Effect.Sleep 100], ?_, ?_, ?_⟩
      · by_cases hos : GOOS = "linux" <;> cases launchErr <;>
          simp [App.simulateKeyPress, hos, List.count_cons]
      · simp [App.simulateKeyPress]
      · by_cases hos : GOOS = "linux" <;> simp [hos]
      · intro h; simp [h]
    · refine ⟨?_, [Effect.NewKeyBonding],
        if launchErr then [Effect.Fatalf] else [Effect.Sleep 100], ?_, ?_, ?_⟩
      · cases launchErr <;> simp [Root.simulateKeyPress, List.count_cons]
      · simp [Root.simulateKeyPress]
      · simp
      · intro h; simp [h]
  · intro hos
    exact ⟨[Effect.HasSHIFT hasShift, Effect.HasCTRLR hasCtrl, Effect.HasALT hasAlt,
      Effect.HasSuper hasSuper, Effect.Launching] ++
        (if launchErr then [Effect.Fatalf] else [Effect.Sleep 100]),
      by simp [App.simulateKeyPress, hos]⟩
  · intro hos
    cases launchErr <;> simp [App.simulateKeyPress, hos]
  · cases launchErr <;> simp [Root.simulateKeyPress]

/-- Witness for C18, amended: three calls on Linux wait 2 seconds three times;
on Windows none does. -/
theorem dispatcher_schedule_witness :
    (processTrace "linux" [⟨[30], false, false, false, false⟩, ⟨[48], true, false, false, false⟩,
        ⟨[30, 48], false, false, true, false⟩]).count (Effect.Sleep 2000) = 3 ∧
      Effect.Sleep 2000 ∉
        App.simulateKeyPress "windows" false false [30] false false false false :=
  ⟨((dispatcher_schedule "linux" false [30] false false false false).2.2.2.2
      [⟨[30], false, false, false, false⟩, ⟨[48], true, false, false, false⟩,
        ⟨[30, 48], false, false, true, false⟩]).1.trans (by decide),
    (dispatcher_schedule "windows" false [30] false false false false).2.2.1 (by decide)⟩

/-! ## Status and dispatch; joining and splitting a chord -/

/-- C19. Status and dispatch are tied together: on every request to `/press`
or `/press/multi` the status is 200, 400, 401 or 405; it is 200 exactly when
the method is `POST`, the `Authorization` header is non-empty and equal to
`authToken`, the key parameter is non-empty and every name in it resolves to a
non-zero code; `simulateKeyPress` is invoked exactly once when the status is
200 and not at all otherwise. -/
theorem status_tied_to_dispatch (K : KeyTable) (authToken : String) (r : Request) :
    ((App.keyPressHandler K authToken r).status ∈ [200, 400, 401, 405] ∧
        ((App.keyPressHandler K authToken r).status = 200 ↔
          r.Method = "POST" ∧ r.Header.Get "Authorization" ≠ "" ∧
            r.Header.Get "Authorization" = authToken ∧ r.Query.Get "keyCode" ≠ "" ∧
            App.getKeyCodeByKeyName K (r.Query.Get "keyCode") ≠ 0) ∧
        ((App.keyPressHandler K authToken r).status = 200 →
          (App.keyPressHandler K authToken r).presses.length = 1) ∧
        ((App.keyPressHandler K authToken r).status ≠ 200 →
          (App.keyPressHandler K authToken r).presses = [])) ∧
      ((App.multiKeyHandler K authToken r).status ∈ [200, 400, 401, 405] ∧
        ((App.multiKeyHandler K authToken r).status = 200 ↔
          r.Method = "POST" ∧ r.Header.Get "Authorization" ≠ "" ∧
            r.Header.Get "Authorization" = authToken ∧ r.Query.Get "keyCodes" ≠ "" ∧
            ∀ seg ∈ strings.Split (r.Query.Get "keyCodes") ',',
              App.getKeyCodeByKeyName K seg ≠ 0) ∧
        ((App.multiKeyHandler K authToken r).status = 200 →
          (App.multiKeyHandler K authToken r).presses.length = 1) ∧
        ((App.multiKeyHandler K authToken r).status ≠ 200 →
          (App.multiKeyHandler K authToken r).presses = [])) := by
  constructor
  · rcases App.keyPressHandler_outcome K authToken r with
      ⟨msg, code, hcode, heq⟩ | ⟨hm, ht, ha, h1, h2, hst, hp⟩
    · have hne : code ≠ 200 := by omega
      refine ⟨?_, ⟨?_, ?_⟩, ?_, ?_⟩
      · rw [heq, httpError_status]
        rcases hcode with rfl | rfl | rfl <;> simp
      · intro hok
        rw [heq, httpError_status] at hok
        exact absurd hok hne
      · rintro ⟨hm, hne2, ha, h1, h2⟩
        have ht : authToken ≠ "" := fun h => hne2 (ha.trans h)
        have hok := (App.keyPressHandler_ok_iff K authToken r hm ht ha).2 ⟨h1, h2⟩
        rw [heq, httpError_status] at hok
        exact absurd hok hne
      · intro hok
        rw [heq, httpError_status] at hok
        exact absurd hok hne
      · intro _
        rw [heq, httpError_presses]
    · refine ⟨by rw [hst]; simp, ⟨fun _ => ⟨hm, ?_, ha, h1, h2⟩, fun _ => hst⟩, ?_, ?_⟩
      · rw [ha]; exact ht
      · intro _; rw [hp]; rfl
      · intro h; exact absurd hst h
  · rcases App.multiKeyHandler_outcome K authToken r with
      ⟨msg, code, hcode, heq⟩ | ⟨hm, ht, ha, h1, h2, hst, hp⟩
    · have hne : code ≠ 200 := by omega
      refine ⟨?_, ⟨?_, ?_⟩, ?_, ?_⟩
      · rw [heq, httpError_status]
        rcases hcode with rfl | rfl | rfl <;> simp
      · intro hok
        rw [heq, httpError_status] at hok
        exact absurd hok hne
      · rintro ⟨hm, hne2, ha, h1, h2⟩
        have ht : authToken ≠ "" := fun h => hne2 (ha.trans h)
        have hok := (App.multiKeyHandler_ok_iff K authToken r hm ht ha).2 ⟨h1, h2⟩
        rw [heq, httpError_status] at hok
        exact absurd hok hne
      · intro hok
        rw [heq, httpError_status] at hok
        exact absurd hok hne
      · intro _
        rw [heq, httpError_presses]
    · refine ⟨by rw [hst]; simp, ⟨fun _ => ⟨hm, ?_, ha, h1, h2⟩, fun _ => hst⟩, ?_, ?_⟩
      · rw [ha]; exact ht
      · intro _; rw [hp]; rfl
      · intro h; exact absurd hst h

/-- Witness for C19: one request per status on `/press`, with the number of
invocations of `simulateKeyPress`. -/
theorem status_tied_to_dispatch_witness :
    ((App.keyPressHandler sampleTable "keycontrol" (postWith [("keyCode", "A")])).status = 200 ∧
        (App.keyPressHandler sampleTable "keycontrol"
          (postWith [("keyCode", "A")])).presses.length = 1) ∧
      ((App.keyPressHandler sampleTable "keycontrol" (postWith [("keyCode", "BOGUS")])).status
          = 400 ∧
        (App.keyPressHandler sampleTable "keycontrol"
          (postWith [("keyCode", "BOGUS")])).presses = []) ∧
      ((App.keyPressHandler sampleTable "keycontrol" ⟨"POST", [], [("keyCode", "A")]⟩).status
          = 401 ∧
        (App.keyPressHandler sampleTable "keycontrol"
          ⟨"POST", [], [("keyCode", "A")]⟩).presses = []) ∧
      ((App.keyPressHandler sampleTable "keycontrol" ⟨"GET", [], [("keyCode", "A")]⟩).status
          = 405 ∧
        (App.keyPressHandler sampleTable "keycontrol"
          ⟨"GET", [], [("keyCode", "A")]⟩).presses = []) :=
  ⟨⟨by decide, (status_tied_to_dispatch sampleTable "keycontrol"
      (postWith [("keyCode", "A")])).1.2.2.1 (by decide)⟩,
    ⟨by decide, (status_tied_to_dispatch sampleTable "keycontrol"
      (postWith [("keyCode", "BOGUS")])).1.2.2.2 (by decide)⟩,
    ⟨by decide, (status_tied_to_dispatch sampleTable "keycontrol"
      ⟨"POST", [], [("keyCode", "A")]⟩).1.2.2.2 (by decide)⟩,
    ⟨by decide, (status_tied_to_dispatch sampleTable "keycontrol"
      ⟨"GET", [], [("keyCode", "A")]⟩).1.2.2.2 (by decide)⟩⟩

theorem String.intercalate_go_append (x y sep : String) (l : List String) :
    String.intercalate.go (x ++ y) sep l = x ++ String.intercalate.go y sep l := by
  induction l generalizing y with
  | nil => rfl
  | cons a rest ih =>
    simp only [String.intercalate.go]
    rw [String.append_assoc, String.append_assoc, ih, String.append_assoc]

theorem strings.Join_cons_cons (a b sep : String) (l : List String) :
    strings.Join (a :: b :: l) sep = a ++ sep ++ strings.Join (b :: l) sep := by
  simp only [strings.Join, String.intercalate, String.intercalate.go]
  rw [String.intercalate_go_append]

theorem strings.Join_singleton (a sep : String) : strings.Join [a] sep = a := rfl

/-- Splitting on `,` the join by `,` of names that hold no `,` gives the names
back. -/
theorem strings.Split_Join (ns : List String) (hne : ns ≠ [])
    (hcomma : ∀ n ∈ ns, ',' ∉ n.data) : strings.Split (strings.Join ns ",") ',' = ns := by
  induction ns with
  | nil => exact absurd rfl hne
  | cons a rest ih =>
    have ha : ∀ x ∈ a.data, ¬ ((x == ',') = true) := by
      intro x hx hxc
      rw [beq_iff_eq] at hxc
      exact hcomma a (List.mem_cons_self _ _) (hxc ▸ hx)
    cases rest with
    | nil =>
      simp only [strings.Join_singleton, strings.Split, List.splitOn]
      rw [List.splitOnP_eq_single _ _ ha]
      rfl
    | cons b l =>
      have ih2 := ih (List.cons_ne_nil _ _) (fun n hn => hcomma n (List.mem_cons_of_mem _ hn))
      rw [strings.Join_cons_cons]
      unfold strings.Split at ih2 ⊢
      have hdata : (a ++ "," ++ strings.Join (b :: l) ",").data =
          a.data ++ ',' :: (strings.Join (b :: l) ",").data := by
        simp [String.data_append]
      rw [hdata, List.splitOn, List.splitOnP_first _ _ ha ',' (by simp), List.map_cons]
      rw [List.splitOn] at ih2
      rw [ih2]

/-- C20. Join/split round trip for chords: no name resolving to a non-zero code
is empty or contains `,`; hence, for every non-empty list `ns` of names each
resolving to a non-zero code, an authorized `POST` to `/press/multi` with
`keyCodes` equal to `ns` joined by `,` is answered with 200 and dispatches
exactly the codes of `ns`, in order. -/
theorem chord_round_trip (K : KeyTable) :
    (∀ n : String, App.getKeyCodeByKeyName K n ≠ 0 → n ≠ "" ∧ ',' ∉ n.data) ∧
      (∀ (authToken : String) (r : Request) (ns : List String),
        r.Method = "POST" → authToken ≠ "" → r.Header.Get "Authorization" = authToken →
        ns ≠ [] → (∀ n ∈ ns, App.getKeyCodeByKeyName K n ≠ 0) →
        r.Query.Get "keyCodes" = strings.Join ns "," →
        (App.multiKeyHandler K authToken r).status = 200 ∧
          (App.multiKeyHandler K authToken r).presses =
            [⟨ns.map (App.getKeyCodeByKeyName K),
              r.Query.Get "shift" == "true", r.Query.Get "ctrl" == "true",
              r.Query.Get "alt" == "true", r.Query.Get "super" == "true"⟩]) := by
  have hname : ∀ n : String, App.getKeyCodeByKeyName K n ≠ 0 → n ≠ "" ∧ ',' ∉ n.data := by
    intro n hn
    have hlabel : n ∈ App.caseLabels := by
      by_contra hnot
      exact hn (appRegistry_of_not_label K n hnot)
    refine ⟨?_, ?_⟩
    · rintro rfl
      exact absurd hlabel (by decide)
    · intro hc
      exact (not_label_of_foreign_char n ⟨',', hc, Or.inr (Or.inr (Or.inl rfl))⟩).1 hlabel
  refine ⟨hname, ?_⟩
  intro authToken r ns hm ht ha hne hall hkeys
  have hsplit : strings.Split (r.Query.Get "keyCodes") ',' = ns := by
    rw [hkeys]
    exact strings.Split_Join ns hne (fun n hn => (hname n (hall n hn)).2)
  have hnonempty : r.Query.Get "keyCodes" ≠ "" := by
    intro hempty
    rw [hempty, strings.Split_empty] at hsplit
    exact (hname "" (hall "" (hsplit ▸ List.mem_singleton_self _))).1 rfl
  rcases App.multiKeyHandler_outcome K authToken r with
    ⟨msg, code, hcode, heq⟩ | ⟨-, -, -, -, -, hst, hp⟩
  · have hok := (App.multiKeyHandler_ok_iff K authToken r hm ht ha).2
      ⟨hnonempty, by rw [hsplit]; exact hall⟩
    rw [heq, httpError_status] at hok
    omega
  · rw [hsplit] at hp
    exact ⟨hst, hp⟩

/-- Witness for C20: the chord `LEFT`, `F5`, `A`. -/
theorem chord_round_trip_witness :
    (App.multiKeyHandler sampleTable "keycontrol"
        (postWith [("keyCodes", strings.Join ["LEFT", "F5", "A"] ",")])).status = 200 ∧
      (App.multiKeyHandler sampleTable "keycontrol"
        (postWith [("keyCodes", strings.Join ["LEFT", "F5", "A"] ",")])).presses =
        [⟨["LEFT", "F5", "A"].map (App.getKeyCodeByKeyName sampleTable),
          false, false, false, false⟩] :=
  (chord_round_trip sampleTable).2 "keycontrol"
    (postWith [("keyCodes", strings.Join ["LEFT", "F5", "A"] ",")]) ["LEFT", "F5", "A"]
    (by decide) (by decide) (by decide) (by decide) (by decide) (by decide)

/-! ## The two handlers on one key; the two registries -/

theorem strings.Split_of_no_sep (v : String) (sep : Char) (h : sep ∉ v.data) :
    strings.Split v sep = [v] := by
  unfold strings.Split
  rw [List.splitOn, List.splitOnP_eq_single]
  · rfl
  · intro x hx hxs
    rw [beq_iff_eq] at hxs
    exact h (hxs ▸ hx)

/-- C21. Single-key and multi-key paths agree on one-key input: for a value `v`
without `,`, a request to `/press/multi` with `keyCodes=v` gets the same status
and the same dispatch (same code sequence and four flags, or none) as a request
to `/press` with `keyCode=v`, the same method, `Authorization` header and
modifier parameters; on success the two bodies are the same text after the
prefixes `Key press simulated for keyCodes: ` and
`Key press simulated for keyCode: `. -/
theorem single_and_multi_agree (K : KeyTable) (authToken v : String) (r1 r2 : Request)
    (hv : ',' ∉ v.data)
    (hmethod : r2.Method = r1.Method)
    (hheader : r2.Header.Get "Authorization" = r1.Header.Get "Authorization")
    (hkey : r1.Query.Get "keyCode" = v) (hkeys : r2.Query.Get "keyCodes" = v)
    (hshift : r2.Query.Get "shift" = r1.Query.Get "shift")
    (hctrl : r2.Query.Get "ctrl" = r1.Query.Get "ctrl")
    (halt : r2.Query.Get "alt" = r1.Query.Get "alt")
    (hsuper : r2.Query.Get "super" = r1.Query.Get "super") :
    (App.multiKeyHandler K authToken r2).status = (App.keyPressHandler K authToken r1).status ∧
      (App.multiKeyHandler K authToken r2).presses =
        (App.keyPressHandler K authToken r1).presses ∧
      ((App.keyPressHandler K authToken r1).status = 200 →
        ∃ rest : String,
          (App.keyPressHandler K authToken r1).body =
              "Key press simulated for keyCode: " ++ rest ∧
            (App.multiKeyHandler K authToken r2).body =
              "Key press simulated for keyCodes: " ++ rest) := by
  rcases request_cases authToken r1 with hm | ⟨hm, ha⟩ | ⟨hm, ht, ha⟩
  · rw [App.keyPressHandler_of_not_post K authToken r1 hm,
      App.multiKeyHandler_of_not_post K authToken r2 (hmethod ▸ hm)]
    exact ⟨rfl, rfl, fun h => absurd h (by decide)⟩
  · rw [App.keyPressHandler_of_unauthorized K authToken r1 hm ha,
      App.multiKeyHandler_of_unauthorized K authToken r2 (hmethod.trans hm) (hheader ▸ ha)]
    exact ⟨rfl, rfl, fun h => absurd h (by decide)⟩
  · rw [App.keyPressHandler_authorized K authToken r1 hm ht ha,
      App.multiKeyHandler_authorized K authToken r2 (hmethod.trans hm) ht (hheader.trans ha),
      hkey, hkeys, hshift, hctrl, halt, hsuper]
    by_cases h1 : v = ""
    · simp only [h1, if_true]
      exact ⟨rfl, rfl, fun h => absurd h (by decide)⟩
    · rw [strings.Split_of_no_sep v ',' hv]
      by_cases h2 : App.getKeyCodeByKeyName K v = 0
      · simp only [h1, h2, if_true, if_false, App.mapKeyNames]
        exact ⟨rfl, rfl, fun h => absurd h (by decide)⟩
      · simp only [h1, h2, if_false, App.mapKeyNames, List.nil_append, strings.Join_singleton,
          App.appendModifiers_eq, String.append_assoc, true_and]
        intro _
        exact ⟨_, rfl, rfl⟩

/-- Witness for C21: `v = A` with ctrl and shift, and the unresolvable
`v = BOGUS`. -/
theorem single_and_multi_agree_witness :
    ((App.multiKeyHandler sampleTable "keycontrol"
          (postWith [("keyCodes", "A"), ("ctrl", "true"), ("shift", "true")])).status =
        (App.keyPressHandler sampleTable "keycontrol"
          (postWith [("keyCode", "A"), ("shift", "true"), ("ctrl", "true")])).status ∧
      (App.multiKeyHandler sampleTable "keycontrol"
          (postWith [("keyCodes", "A"), ("ctrl", "true"), ("shift", "true")])).presses =
        (App.keyPressHandler sampleTable "keycontrol"
          (postWith [("keyCode", "A"), ("shift", "true"), ("ctrl", "true")])).presses) ∧
      ((App.multiKeyHandler sampleTable "keycontrol" (postWith [("keyCodes", "BOGUS")])).status =
        (App.keyPressHandler sampleTable "keycontrol" (postWith [("keyCode", "BOGUS")])).status ∧
      (App.multiKeyHandler sampleTable "keycontrol" (postWith [("keyCodes", "BOGUS")])).presses =
        (App.keyPressHandler sampleTable "keycontrol" (postWith [("keyCode", "BOGUS")])).presses) :=
  ⟨⟨(single_and_multi_agree sampleTable "keycontrol" "A"
        (postWith [("keyCode", "A"), ("shift", "true"), ("ctrl", "true")])
        (postWith [("keyCodes", "A"), ("ctrl", "true"), ("shift", "true")])
        (by decide) (by decide) (by decide) (by decide) (by decide) (by decide) (by decide)
        (by decide) (by decide)).1,
      (single_and_multi_agree sampleTable "keycontrol" "A"
        (postWith [("keyCode", "A"), ("shift", "true"), ("ctrl", "true")])
        (postWith [("keyCodes", "A"), ("ctrl", "true"), ("shift", "true")])
        (by decide) (by decide) (by decide) (by decide) (by decide) (by decide) (by decide)
        (by decide) (by decide)).2.1⟩,
    ⟨(single_and_multi_agree sampleTable "keycontrol" "BOGUS"
        (postWith [("keyCode", "BOGUS")]) (postWith [("keyCodes", "BOGUS")])
        (by decide) (by decide) (by decide) (by decide) (by decide) (by decide) (by decide)
        (by decide) (by decide)).1,
      (single_and_multi_agree sampleTable "keycontrol" "BOGUS"
        (postWith [("keyCode", "BOGUS")]) (postWith [("keyCodes", "BOGUS")])
        (by decide) (by decide) (by decide) (by decide) (by decide) (by decide) (by decide)
        (by decide) (by decide)).2.1⟩⟩

theorem switchReturn_eq_lookup (K : KeyTable) (tag : String)
    (cs : List (String × keybd_event)) :
    switchReturn K tag cs = (match cs.lookup tag with | some c => K c | none => 0) := by
  induction cs with
  | nil => rfl
  | cons p rest ih =>
    obtain ⟨label, c⟩ := p
    by_cases h : tag = label
    · subst h
      simp [switchReturn, List.lookup]
    · have hb : (tag == label) = false := by simpa using h
      simp only [switchReturn, if_neg h, List.lookup, hb, ih]

set_option maxRecDepth 200000 in
theorem App.caseClauses_lookup_Root :
    ∀ n ∈ App.caseLabels, Root.caseClauses.lookup n = App.caseClauses.lookup n := by
  decide

set_option maxRecDepth 200000 in
theorem Root.added_labels :
    ∀ n ∈ ["F21", "F22", "F23", "F24", "BACKSPACE", "INSERT", "KP0", "KP1", "KP2", "KP3", "KP4",
        "KP5", "KP6", "KP7", "KP8", "KP9"],
      n ∈ Root.caseLabels ∧ n ∉ App.caseLabels := by
  decide

/-- C22. The two registries are related by extension: every case label of
`getKeyCodeByKeyName` in `src/app/util.go` is a case label in `src/util.go`,
where it returns the same key code (the same `VK_*` constant); `src/util.go`
only adds names, among them `F21`..`F24`, `BACKSPACE`, `INSERT` and
`KP0`..`KP9`. -/
theorem root_registry_extends_app (K : KeyTable) :
    (∀ n ∈ App.caseLabels,
        n ∈ Root.caseLabels ∧ Root.getKeyCodeByKeyName K n = App.getKeyCodeByKeyName K n) ∧
      (∀ n : String, App.getKeyCodeByKeyName K n ≠ 0 →
        Root.getKeyCodeByKeyName K n = App.getKeyCodeByKeyName K n) ∧
      (∀ n ∈ ["F21", "F22", "F23", "F24", "BACKSPACE", "INSERT", "KP0", "KP1", "KP2", "KP3",
          "KP4", "KP5", "KP6", "KP7", "KP8", "KP9"],
        n ∈ Root.caseLabels ∧ n ∉ App.caseLabels) := by
  have hsame : ∀ n ∈ App.caseLabels,
      Root.getKeyCodeByKeyName K n = App.getKeyCodeByKeyName K n := by
    intro n hn
    unfold Root.getKeyCodeByKeyName App.getKeyCodeByKeyName
    rw [switchReturn_eq_lookup, switchReturn_eq_lookup, App.caseClauses_lookup_Root n hn]
  refine ⟨fun n hn => ⟨App.caseLabels_subset_Root n hn, hsame n hn⟩, ?_, Root.added_labels⟩
  intro n hne
  apply hsame
  by_contra hnot
  exact hne (appRegistry_of_not_label K n hnot)

/-- Witness for C22: `A` and `ENTER` resolve alike in both registries, `F21` in
`src/util.go` only. -/
theorem root_registry_extends_app_witness :
    Root.getKeyCodeByKeyName sampleTable "A" = App.getKeyCodeByKeyName sampleTable "A" ∧
      Root.getKeyCodeByKeyName sampleTable "ENTER" =
        App.getKeyCodeByKeyName sampleTable "ENTER" ∧
      ("F21" ∈ Root.caseLabels ∧ "F21" ∉ App.caseLabels) :=
  ⟨((root_registry_extends_app sampleTable).1 "A" (by decide)).2,
    ((root_registry_extends_app sampleTable).1 "ENTER" (by decide)).2,
    (root_registry_extends_app sampleTable).2.2 "F21" (by decide)⟩

/-! ## What a case label resolves to -/

theorem mem_of_lookup_eq_some (tag : String) (c : keybd_event)
    (cs : List (String × keybd_event)) (h : cs.lookup tag = some c) : (tag, c) ∈ cs := by
  induction cs with
  | nil => simp [List.lookup] at h
  | cons p rest ih =>
    obtain ⟨label, d⟩ := p
    by_cases hl : tag = label
    · subst hl
      simp only [List.lookup, beq_self_eq_true, Option.some.injEq] at h
      subst h
      exact List.mem_cons_self _ _
    · have hb : (tag == label) = false := by simpa using hl
      simp only [List.lookup, hb] at h
      exact List.mem_cons_of_mem _ (ih h)

set_option maxRecDepth 200000 in
theorem appClauses_lookup_self :
    ∀ p ∈ App.caseClauses, App.caseClauses.lookup p.1 = some p.2 := by
  decide

set_option maxRecDepth 200000 in
theorem rootClauses_lookup_self :
    ∀ p ∈ Root.caseClauses, Root.caseClauses.lookup p.1 = some p.2 := by
  decide

/-- For a table of clauses with pairwise different labels, a property that `0`
does not have holds of the value of the switch exactly when the tag is the
label of a clause whose constant has it. -/
theorem switchReturn_property_iff (K : KeyTable) (tag : String)
    (cs : List (String × keybd_event))
    (hself : ∀ p ∈ cs, cs.lookup p.1 = some p.2) (P : Int → Prop) (h0 : ¬ P 0) :
    P (switchReturn K tag cs) ↔ ∃ c, (tag, c) ∈ cs ∧ P (K c) := by
  rw [switchReturn_eq_lookup]
  constructor
  · intro h
    cases hl : cs.lookup tag with
    | none => rw [hl] at h; exact absurd h h0
    | some c => rw [hl] at h; exact ⟨c, mem_of_lookup_eq_some tag c cs hl, h⟩
  · rintro ⟨c, hc, hP⟩
    rw [hself (tag, c) hc]
    exact hP

/-- Counterexample to C6 as stated: with `VK_RESERVED = 0` the case label
`RESERVED` of `src/util.go` resolves to `0`, and with `VK_A = 0` the case label
`A` of `src/app/util.go` resolves to `0` and `/press?keyCode=A` is answered
with 400 on an authorized `POST`. -/
theorem label_positive_fails :
    ("RESERVED" ∈ Root.caseLabels ∧
        Root.getKeyCodeByKeyName reservedZeroTable "RESERVED" = 0) ∧
      ("A" ∈ App.caseLabels ∧ App.getKeyCodeByKeyName ansiAZeroTable "A" = 0 ∧
        (App.keyPressHandler ansiAZeroTable "keycontrol"
          (postWith [("keyCode", "A")])).status = 400 ∧
        (App.keyPressHandler ansiAZeroTable "keycontrol"
          (postWith [("keyCode", "A")])).presses = []) := by
  decide

/-- C6, amended. For every clause `case n: return VK_c` of
`getKeyCodeByKeyName` (in `src/app/util.go` and in `src/util.go`, `RESERVED`
included) the name `n` resolves to the value of the constant `VK_c`,
unchanged, whatever that value is.  Hence a name resolves to a strictly
positive (resp. non-zero) code exactly when it is the label of a clause whose
constant is strictly positive (resp. non-zero), and on an authorized `POST`
the handlers accept exactly the names that are case labels of
`src/app/util.go` with a non-zero constant. -/
theorem getKeyCodeByKeyName_returns_constant (K : KeyTable) :
    (∀ p ∈ App.caseClauses, App.getKeyCodeByKeyName K p.1 = K p.2) ∧
      (∀ p ∈ Root.caseClauses, Root.getKeyCodeByKeyName K p.1 = K p.2) ∧
      (∀ n : String, 0 < App.getKeyCodeByKeyName K n ↔
        ∃ c, (n, c) ∈ App.caseClauses ∧ 0 < K c) ∧
      (∀ n : String, 0 < Root.getKeyCodeByKeyName K n ↔
        ∃ c, (n, c) ∈ Root.caseClauses ∧ 0 < K c) ∧
      (∀ n : String, App.getKeyCodeByKeyName K n ≠ 0 ↔
        ∃ c, (n, c) ∈ App.caseClauses ∧ K c ≠ 0) ∧
      (∀ n : String, Root.getKeyCodeByKeyName K n ≠ 0 ↔
        ∃ c, (n, c) ∈ Root.caseClauses ∧ K c ≠ 0) ∧
      (∀ (authToken : String) (r : Request), r.Method = "POST" → authToken ≠ "" →
        r.Header.Get "Authorization" = authToken →
        (((App.keyPressHandler K authToken r).status = 200 ↔
            ∃ c, (r.Query.Get "keyCode", c) ∈ App.caseClauses ∧ K c ≠ 0) ∧
          ((App.multiKeyHandler K authToken r).status = 200 ↔
            ∀ seg ∈ strings.Split (r.Query.Get "keyCodes") ',',
              ∃ c, (seg, c) ∈ App.caseClauses ∧ K c ≠ 0))) := by
  have happ : ∀ n : String, App.getKeyCodeByKeyName K n ≠ 0 ↔
      ∃ c, (n, c) ∈ App.caseClauses ∧ K c ≠ 0 := fun n =>
    switchReturn_property_iff K n App.caseClauses appClauses_lookup_self (· ≠ 0) (by simp)
  have hempty : ¬ ∃ c, (("" : String), c) ∈ App.caseClauses ∧ K c ≠ 0 := by
    rintro ⟨c, hc, -⟩
    have hmem : ("" : String) ∈ App.caseLabels := List.mem_map.2 ⟨("", c), hc, rfl⟩
    exact absurd hmem (by decide)
  refine ⟨?_, ?_, ?_, ?_, happ, ?_, ?_⟩
  · intro p hp
    unfold App.getKeyCodeByKeyName
    rw [switchReturn_eq_lookup, appClauses_lookup_self p hp]
  · intro p hp
    unfold Root.getKeyCodeByKeyName
    rw [switchReturn_eq_lookup, rootClauses_lookup_self p hp]
  · exact fun n => switchReturn_property_iff K n App.caseClauses appClauses_lookup_self
      (0 < ·) (by simp)
  · exact fun n => switchReturn_property_iff K n Root.caseClauses rootClauses_lookup_self
      (0 < ·) (by simp)
  · exact fun n => switchReturn_property_iff K n Root.caseClauses rootClauses_lookup_self
      (· ≠ 0) (by simp)
  · intro authToken r hm ht ha
    constructor
    · rw [App.keyPressHandler_ok_iff K authToken r hm ht ha, happ]
      constructor
      · exact fun h => h.2
      · intro h
        refine ⟨?_, h⟩
        intro he
        rw [he] at h
        exact hempty h
    · rw [App.multiKeyHandler_ok_iff K authToken r hm ht ha]
      constructor
      · rintro ⟨-, h⟩ seg hseg
        exact (happ seg).1 (h seg hseg)
      · intro h
        refine ⟨?_, fun seg hseg => (happ seg).2 (h seg hseg)⟩
        intro he
        rw [he, strings.Split_empty] at h
        exact hempty (h "" (List.mem_singleton_self _))

/-- Witness for C6, amended: `A`, `F5`, `ENTER`, `SP3` and `RESERVED` resolve to
their own constants under any table; with `VK_A = 0` the name `A` is not
accepted by `/press`. -/
theorem getKeyCodeByKeyName_returns_constant_witness :
    (App.getKeyCodeByKeyName ansiAZeroTable "A" = ansiAZeroTable keybd_event.VK_A ∧
        App.getKeyCodeByKeyName sampleTable "F5" = sampleTable keybd_event.VK_F5 ∧
        App.getKeyCodeByKeyName sampleTable "ENTER" = sampleTable keybd_event.VK_ENTER ∧
        App.getKeyCodeByKeyName sampleTable "SP3" = sampleTable keybd_event.VK_SP3 ∧
        Root.getKeyCodeByKeyName reservedZeroTable "RESERVED" =
          reservedZeroTable keybd_event.VK_RESERVED) ∧
      0 < App.getKeyCodeByKeyName sampleTable "A" ∧
      ¬ (App.keyPressHandler ansiAZeroTable "keycontrol"
        (postWith [("keyCode", "A")])).status = 200 :=
  ⟨⟨(getKeyCodeByKeyName_returns_constant ansiAZeroTable).1 ("A", keybd_event.VK_A) (by decide),
      (getKeyCodeByKeyName_returns_constant sampleTable).1 ("F5", keybd_event.VK_F5) (by decide),
      (getKeyCodeByKeyName_returns_constant sampleTable).1 ("ENTER", keybd_event.VK_ENTER)
        (by decide),
      (getKeyCodeByKeyName_returns_constant sampleTable).1 ("SP3", keybd_event.VK_SP3)
        (by decide),
      (getKeyCodeByKeyName_returns_constant reservedZeroTable).2.1
        ("RESERVED", keybd_event.VK_RESERVED) (by decide)⟩,
    ((getKeyCodeByKeyName_returns_constant sampleTable).2.2.1 "A").2
      ⟨keybd_event.VK_A, by decide, by decide⟩,
    fun h => by
      obtain ⟨c, hc, hne⟩ :=
        (((getKeyCodeByKeyName_returns_constant ansiAZeroTable).2.2.2.2.2.2 "keycontrol"
          (postWith [("keyCode", "A")]) (by decide) (by decide) (by decide)).1).1 h
      have hlook := appClauses_lookup_self ("A", c) hc
      have hc2 : c = keybd_event.VK_A := by
        have : App.caseClauses.lookup "A" = some keybd_event.VK_A := by decide
        rw [this] at hlook
        exact (Option.some.inj hlook).symm
      subst hc2
      exact hne (by decide)⟩

end KeyControl
